import Mathlib

/-!
Shallow embedding of the `tropolib` helper library (files `src/__init__.py`,
`src/ec2.py`, `src/apigatewayv2.py`) together with proofs about its behaviour.

Troposphere resource objects are modelled by a generic `Resource` record
(resource type, title, property map, tags, metadata); intrinsic-function
values (`Ref`, `GetAtt`, `Join`, pseudo parameters) are modelled by `RVal`.
Python exceptions are modelled by `Except`/`Option` results, and the two
external helpers from `pawslib` (`alphanum` and `split_net_across_zones`),
which are not part of this repository, are modelled from the specification.
-/

/-! ### External helpers, modelled from the spec -/

/-- Modelled from the spec: `alphanum` (imported from the external helper
library `pawslib.var`, not part of this repository) reduces a string to its
alphanumeric characters; the source comments note that resource names only
accept alphanumeric characters. -/
def alphanum (s : String) : String :=
  ⟨s.data.filter Char.isAlphanum⟩

/-- Python `str.lower()` (character-wise, as in troposphere's ASCII titles). -/
def strToLower (s : String) : String :=
  ⟨s.data.map Char.toLower⟩

/-- Python `str.upper()` (character-wise). -/
def strToUpper (s : String) : String :=
  ⟨s.data.map Char.toUpper⟩

/-- Python `str.capitalize()`: first character upper-cased, the rest
lower-cased. -/
def strCapitalize (s : String) : String :=
  match s.data with
  | [] => ""
  | c :: rest => ⟨c.toUpper :: rest.map Char.toLower⟩

/-- `alphanum(name_prefix).lower().capitalize()` — the resource-title prefix
computed by both variants of `multiaz_subnets`. -/
def pfxOf (name_pfx : String) : String :=
  strCapitalize (strToLower (alphanum name_pfx))

/-- Base-2 logarithm (floor), fuel-based so that it evaluates by kernel
reduction; the first argument is the fuel. -/
def log2fuel : Nat → Nat → Nat
  | 0, _ => 0
  | fuel + 1, n => if 2 ≤ n then log2fuel fuel (n / 2) + 1 else 0

/-- Base-2 logarithm (floor) of `n`. -/
def slog2 (n : Nat) : Nat := log2fuel n n

instance exceptDecEq {ε α : Type _} [DecidableEq ε] [DecidableEq α] :
    DecidableEq (Except ε α)
  | .ok a, .ok b =>
    if h : a = b then isTrue (by rw [h])
    else isFalse (fun hh => h (Except.ok.inj hh))
  | .ok _, .error _ => isFalse (fun hh => Except.noConfusion hh)
  | .error _, .ok _ => isFalse (fun hh => Except.noConfusion hh)
  | .error e, .error f =>
    if h : e = f then isTrue (by rw [h])
    else isFalse (fun hh => h (Except.error.inj hh))

/-- An IP range in prefix notation: a base address and a prefix length. -/
structure Cidr where
  base : Nat
  len : Nat
deriving DecidableEq, Repr

/-- One entry of the result of `split_net_across_zones`: an availability-zone
name together with the sub-block assigned to it.  The Python code reads the
keys `"az"` and `"cidr"` of each segment. -/
structure NetSegment where
  az : String
  cidr : Cidr
deriving DecidableEq, Repr

/-- A cloud region: its name and the availability zones present in it. -/
structure Region where
  name : String
  zones : List String
deriving DecidableEq, Repr

/-- Modelled from the spec: `split_net_across_zones` (imported from the
external library `pawslib.ec2`, explicitly not implemented in this
repository).  Per the spec it must, given a base CIDR block, a region with
its availability zones and a desired subnet count that is a power of two,
deterministically produce that many equally sized sub-blocks, assign each to
an availability zone in a stable round-robin order, and fail if the subnet
count exceeds the address space or the number of zones available. -/
def split_net_across_zones (cidr : Cidr) (region : Region) (n : Nat) :
    Except String (List NetSegment) :=
  if 2 ^ (32 - cidr.len) < n then
    .error "subnet count exceeds the address space"
  else if region.zones.length < n then
    .error "subnet count exceeds the number of availability zones"
  else
    .ok ((List.range n).map fun i =>
      { az := region.zones.getD (i % region.zones.length) ""
        cidr :=
          { base := cidr.base + i * 2 ^ (32 - (cidr.len + slog2 n))
            len := cidr.len + slog2 n } })

/-! ### Troposphere resource model -/

/-- Atoms allowed inside a troposphere `Join` list. -/
inductive RAtom where
  | str : String → RAtom
  | ref : String → RAtom
  | regionPseudo : RAtom
  | accountIdPseudo : RAtom
deriving DecidableEq, Repr

/-- Values of troposphere resource properties: plain strings, `Ref` to a
resource (identified by its title), `GetAtt`, a CIDR block coming from
`split_net_across_zones`, numbers, booleans, and `Join` expressions. -/
inductive RVal where
  | str : String → RVal
  | ref : String → RVal
  | getAtt : String → String → RVal
  | cidr : Cidr → RVal
  | nat : Nat → RVal
  | bool : Bool → RVal
  | join : String → List RAtom → RVal
deriving DecidableEq, Repr

/-- A troposphere resource: its CloudFormation type string, title, property
map, tags (`Key`/`Value` pairs) and `Metadata` attribute. -/
structure Resource where
  rtype : String
  title : String
  props : List (String × RVal)
  tags : List (String × String)
  metadata : List (String × RVal)
deriving DecidableEq, Repr

/-- Python exceptions raised (or propagated) by the library. -/
inductive PyError where
  | valueError : String → PyError
  | notImplementedError : String → PyError
  | splitError : String → PyError
deriving DecidableEq, Repr

/-- Python `s[-1:].upper()`: the last character of a string as an upper-cased
one-character string (empty when `s` is empty). -/
def lastUpper (s : String) : String :=
  match s.data.getLast? with
  | none => ""
  | some c => String.singleton c.toUpper

/-! ### `multiaz_subnets` (src/ec2.py) -/

/-- The subnet resource built in one iteration of the loop of
`multiaz_subnets` in `src/ec2.py`: tag value `f"{name_prefix} {az_index}"`,
and `Metadata` carrying `az` (lower-cased zone), `az_index` and `suffix`. -/
def ec2Subnet (name_pfx pfx : String) (vpcId : RVal) (index : Nat)
    (seg : NetSegment) : Resource :=
  { rtype := "AWS::EC2::Subnet"
    title := pfx ++ Nat.repr (index + 1)
    props := [("AvailabilityZone", .str seg.az), ("CidrBlock", .cidr seg.cidr),
              ("VpcId", vpcId)]
    tags := [("Name", name_pfx ++ " " ++ lastUpper seg.az)]
    metadata := [("az", .str (strToLower seg.az)), ("az_index", .str (lastUpper seg.az)),
                 ("suffix", .nat (index + 1))] }

/-- The subnet resource built in one iteration of the loop of
`multiaz_subnets` in `src/__init__.py`: tag value
`f"{name_prefix} {index+1}({az_index})"`, and no `Metadata`. -/
def initSubnet (name_pfx pfx : String) (vpcId : RVal) (index : Nat)
    (seg : NetSegment) : Resource :=
  { rtype := "AWS::EC2::Subnet"
    title := pfx ++ Nat.repr (index + 1)
    props := [("AvailabilityZone", .str seg.az), ("CidrBlock", .cidr seg.cidr),
              ("VpcId", vpcId)]
    tags := [("Name", name_pfx ++ " " ++ Nat.repr (index + 1) ++ "(" ++ lastUpper seg.az ++ ")")]
    metadata := [] }

/-- `SubnetNetworkAclAssociation` resource as built by both variants of
`multiaz_subnets`. -/
def naclAssociation (subnetTitle : String) (naclId : RVal) : Resource :=
  { rtype := "AWS::EC2::SubnetNetworkAclAssociation"
    title := subnetTitle ++ "NaclAssociation"
    props := [("SubnetId", .ref subnetTitle), ("NetworkAclId", naclId)]
    tags := []
    metadata := [] }

/-- `SubnetRouteTableAssociation` resource as built by both variants of
`multiaz_subnets` and by `VpcTemplate.add_natted_subnet_group`. -/
def routeTableAssociation (subnetTitle : String) (rtId : RVal) : Resource :=
  { rtype := "AWS::EC2::SubnetRouteTableAssociation"
    title := subnetTitle ++ "RouteAssociation"
    props := [("SubnetId", .ref subnetTitle), ("RouteTableId", rtId)]
    tags := []
    metadata := [] }

/-- `if x is None and res is not None: x = Ref(res)` — the in-loop update of
the local variables `network_acl_id` / `route_table_id`. -/
def updateId (x : Option RVal) (res : Option String) : Option RVal :=
  match x with
  | none => res.map RVal.ref
  | some v => some v

/-- The loop of `multiaz_subnets` in `src/ec2.py` over the enumerated net
segments.  The loop mutates the local variables `network_acl_id` and
`route_table_id` (threaded here as `naclId` / `rtId`); the update happens
before the corresponding association is emitted. -/
def multiazGoEc2 (name_pfx pfx : String) (vpcId : RVal)
    (network_acl route_table : Option String) :
    List (Nat × NetSegment) → Option RVal → Option RVal → List Resource
  | [], _, _ => []
  | (index, seg) :: rest, naclId, rtId =>
    let subnet := ec2Subnet name_pfx pfx vpcId index seg
    let naclId2 := updateId naclId network_acl
    let rtId2 := updateId rtId route_table
    subnet ::
      ((match naclId2 with
        | some v => [naclAssociation subnet.title v]
        | none => []) ++
       (match rtId2 with
        | some v => [routeTableAssociation subnet.title v]
        | none => []) ++
       multiazGoEc2 name_pfx pfx vpcId network_acl route_table rest naclId2 rtId2)

/-- The loop of `multiaz_subnets` in `src/__init__.py`; identical to the
`src/ec2.py` loop except for the subnet resource it builds. -/
def multiazGoInit (name_pfx pfx : String) (vpcId : RVal)
    (network_acl route_table : Option String) :
    List (Nat × NetSegment) → Option RVal → Option RVal → List Resource
  | [], _, _ => []
  | (index, seg) :: rest, naclId, rtId =>
    let subnet := initSubnet name_pfx pfx vpcId index seg
    let naclId2 := updateId naclId network_acl
    let rtId2 := updateId rtId route_table
    subnet ::
      ((match naclId2 with
        | some v => [naclAssociation subnet.title v]
        | none => []) ++
       (match rtId2 with
        | some v => [routeTableAssociation subnet.title v]
        | none => []) ++
       multiazGoInit name_pfx pfx vpcId network_acl route_table rest naclId2 rtId2)

/-- `multiaz_subnets` from `src/ec2.py`.  Resource arguments (`vpc`,
`network_acl`, `route_table`) are represented by the title of the resource
they refer to, id arguments by plain strings; a `Ref` to a resource argument
is modelled as `RVal.ref` of its title.  Raising is modelled by `Except`;
errors raised by the external `split_net_across_zones` are wrapped in
`PyError.splitError`. -/
def multiaz_subnets (name_pfx : String) (cidr_block : Cidr) (region : Region)
    (vpc vpc_id : Option String) (no_of_subnets : Nat)
    (network_acl network_acl_id route_table route_table_id : Option String) :
    Except PyError (List Resource) :=
  if vpc = none ∧ vpc_id = none then
    .error (.valueError "One of vpc or vpc_id must be specified")
  else
    let vpcId : RVal :=
      match vpc_id with
      | some s => .str s
      | none => .ref (vpc.getD "")
    let pfx := pfxOf name_pfx
    match split_net_across_zones cidr_block region no_of_subnets with
    | .error e => .error (.splitError e)
    | .ok net_split =>
        .ok (multiazGoEc2 name_pfx pfx vpcId network_acl route_table
          net_split.enum (network_acl_id.map RVal.str) (route_table_id.map RVal.str))

/-- `multiaz_subnets` from `src/__init__.py` (the package root defines its own
copy of the function, differing only in the subnet tags/metadata). -/
def init_multiaz_subnets (name_pfx : String) (cidr_block : Cidr) (region : Region)
    (vpc vpc_id : Option String) (no_of_subnets : Nat)
    (network_acl network_acl_id route_table route_table_id : Option String) :
    Except PyError (List Resource) :=
  if vpc = none ∧ vpc_id = none then
    .error (.valueError "One of vpc or vpc_id must be specified")
  else
    let vpcId : RVal :=
      match vpc_id with
      | some s => .str s
      | none => .ref (vpc.getD "")
    let pfx := pfxOf name_pfx
    match split_net_across_zones cidr_block region no_of_subnets with
    | .error e => .error (.splitError e)
    | .ok net_split =>
        .ok (multiazGoInit name_pfx pfx vpcId network_acl route_table
          net_split.enum (network_acl_id.map RVal.str) (route_table_id.map RVal.str))

/-! ### `VpcTemplate` (src/ec2.py) -/

/-- The mutable state of a `VpcTemplate` object that the subnet-group methods
read or write: the `_r` resource dictionary (string keys, insertion-ordered),
the `nat_gateways` and `natted_route_tables` lists, and the resources the
constructor exposes as attributes (`self.vpc`, `self.public_nacl`,
`self.public_route_table`, `self.internal_nacl`). -/
structure VpcTemplate where
  name : String
  region : Region
  cidr_block : Cidr
  r : List (String × Resource)
  nat_gateways : List Resource
  natted_route_tables : List Resource
  vpc : Resource
  public_nacl : Resource
  public_route_table : Resource
  internal_nacl : Resource
deriving DecidableEq, Repr

/-- Python dict assignment `d[k] = v` on an insertion-ordered association
list: replace the value in place if the key is present, append otherwise. -/
def dictSet (d : List (String × Resource)) (k : String) (v : Resource) :
    List (String × Resource) :=
  if d.any (fun p => p.1 = k) then
    d.map (fun p => if p.1 = k then (k, v) else p)
  else
    d ++ [(k, v)]

/-- `res.Metadata[k]` read as a string (the `az` / `az_index` entries). -/
def metaStr (r : Resource) (k : String) : String :=
  match r.metadata.lookup k with
  | some (.str s) => s
  | _ => ""

/-- `res.Metadata[k]` read as a number (the `suffix` entry). -/
def metaNat (r : Resource) (k : String) : Nat :=
  match r.metadata.lookup k with
  | some (.nat n) => n
  | _ => 0

/-- The Elastic IP built for a NAT gateway: `EIP(title=f"EipNatGw{suffix}",
Domain="vpc")`. -/
def eipRes (suffix : Nat) : Resource :=
  { rtype := "AWS::EC2::EIP"
    title := "EipNatGw" ++ Nat.repr suffix
    props := [("Domain", .str "vpc")]
    tags := []
    metadata := [] }

/-- The NAT gateway built for a public subnet. -/
def natGwRes (subnetTitle az az_index : String) (suffix : Nat) : Resource :=
  { rtype := "AWS::EC2::NatGateway"
    title := "NatGw" ++ Nat.repr suffix
    props := [("AllocationId", .getAtt ("EipNatGw" ++ Nat.repr suffix) "AllocationId"),
              ("SubnetId", .ref subnetTitle)]
    tags := [("Name", "Nat Gw " ++ az_index)]
    metadata := [("az", .str az), ("az_index", .str az_index), ("suffix", .nat suffix)] }

/-- The private (natted) route table built for a public subnet. -/
def privRouteTableRes (vpcTitle az az_index : String) (suffix : Nat) : Resource :=
  { rtype := "AWS::EC2::RouteTable"
    title := "PrivRouteTable" ++ Nat.repr suffix
    props := [("VpcId", .ref vpcTitle)]
    tags := [("Name", "Private " ++ az_index)]
    metadata := [("az", .str az), ("az_index", .str az_index), ("suffix", .nat suffix)] }

/-- The default route through a NAT gateway:
`Route(title=f"NatRoute{az_index.upper()}", DestinationCidrBlock="0.0.0.0/0", ...)`. -/
def natRouteRes (az_index rtTitle gwTitle : String) : Resource :=
  { rtype := "AWS::EC2::Route"
    title := "NatRoute" ++ strToUpper az_index
    props := [("RouteTableId", .ref rtTitle), ("DestinationCidrBlock", .str "0.0.0.0/0"),
              ("NatGatewayId", .ref gwTitle)]
    tags := []
    metadata := [] }

/-- One iteration of the loop of `VpcTemplate.add_public_subnet_group`: store
the resource in `_r`; when NAT gateways are requested and the resource is a
subnet, additionally create the EIP, the NAT gateway, the private route table
and the NAT route, appending the gateway and the route table to the
corresponding lists. -/
def addPublicStep (create_nat_gateways : Bool) (t : VpcTemplate) (res : Resource) :
    VpcTemplate :=
  let t1 := { t with r := dictSet t.r res.title res }
  if create_nat_gateways ∧ res.rtype = "AWS::EC2::Subnet" then
    let az := metaStr res "az"
    let az_index := metaStr res "az_index"
    let suffix := metaNat res "suffix"
    let eip := eipRes suffix
    let t2 := { t1 with r := dictSet t1.r eip.title eip }
    let nat_gw := natGwRes res.title az az_index suffix
    let t3 := { t2 with
                r := dictSet t2.r nat_gw.title nat_gw
                nat_gateways := t2.nat_gateways ++ [nat_gw] }
    let route_table := privRouteTableRes t.vpc.title az az_index suffix
    let t4 := { t3 with
                natted_route_tables := t3.natted_route_tables ++ [route_table]
                r := dictSet t3.r route_table.title route_table }
    let route := natRouteRes az_index route_table.title nat_gw.title
    { t4 with r := dictSet t4.r route.title route }
  else
    t1

/-- `VpcTemplate.add_public_subnet_group`: split the block with
`multiaz_subnets` (passing the VPC, the public network ACL and the public
route table) and fold the per-resource step over the result. -/
def add_public_subnet_group (t : VpcTemplate) (name_pfx : String)
    (cidr_block : Cidr) (no_of_subnets : Nat) (create_nat_gateways : Bool) :
    Except PyError VpcTemplate :=
  match multiaz_subnets name_pfx cidr_block t.region (some t.vpc.title) none
      no_of_subnets (some t.public_nacl.title) none
      (some t.public_route_table.title) none with
  | .error e => .error e
  | .ok rs => .ok (rs.foldl (addPublicStep create_nat_gateways) t)

/-- `self.natted_route_tables` scan of `add_natted_subnet_group`: the first
route table whose `Metadata["az"]` equals the subnet's `Metadata["az"]`. -/
def findNattedRt (rts : List Resource) (az : String) : Option Resource :=
  rts.find? (fun rt => metaStr rt "az" = az)

/-- The loop of `VpcTemplate.add_natted_subnet_group`: store each resource in
`_r`; for each subnet, associate it with the natted route table in the same
availability zone, raising `NotImplementedError` when there is none. -/
def nattedLoop : List Resource → VpcTemplate → Except PyError VpcTemplate
  | [], t => .ok t
  | res :: rest, t =>
    let t1 := { t with r := dictSet t.r res.title res }
    if res.rtype = "AWS::EC2::Subnet" then
      match findNattedRt t1.natted_route_tables (metaStr res "az") with
      | some route_table =>
          nattedLoop rest
            { t1 with
              r := dictSet t1.r (res.title ++ "RouteAssociation")
                (routeTableAssociation res.title (.ref route_table.title)) }
      | none =>
          .error (.notImplementedError
            ("Can\x27t find NAT gateway in " ++ metaStr res "az"))
    else
      nattedLoop rest t1

/-- `VpcTemplate.add_natted_subnet_group`: split the block with
`multiaz_subnets` (passing the VPC and the internal network ACL, no route
table) and run the association loop. -/
def add_natted_subnet_group (t : VpcTemplate) (cidr_block : Cidr)
    (name_pfx : String) (no_of_subnets : Nat) : Except PyError VpcTemplate :=
  match multiaz_subnets name_pfx cidr_block t.region (some t.vpc.title) none
      no_of_subnets (some t.internal_nacl.title) none none none with
  | .error e => .error e
  | .ok rs => nattedLoop rs t

/-! ### `HttpApi` (src/apigatewayv2.py) -/

/-- Keys of the `HttpApi.resources` dictionary.  `add_route` stores the
Integration under its title string but stores the Route under the Route
object itself (`self.resources[api_route] = api_route`), so keys are either
strings or resources. -/
inductive HKey where
  | str : String → HKey
  | res : Resource → HKey
deriving DecidableEq, Repr

/-- The state of an `HttpApi` object. -/
structure HttpApi where
  name : String
  clean_name : String
  description : Option String
  resources : List (HKey × Resource)
  t_api : Resource
deriving DecidableEq, Repr

/-- Python dict assignment on the `HttpApi.resources` dictionary. -/
def hdictSet (d : List (HKey × Resource)) (k : HKey) (v : Resource) :
    List (HKey × Resource) :=
  if d.any (fun p => p.1 = k) then
    d.map (fun p => if p.1 = k then (k, v) else p)
  else
    d ++ [(k, v)]

/-- `HttpApi.__init__`: build the `Api` resource and store it under its title. -/
def HttpApi.init (name : String) (description : Option String) : HttpApi :=
  let clean := alphanum name
  let api : Resource :=
    { rtype := "AWS::ApiGatewayV2::Api"
      title := clean ++ "HTTPApi"
      props := [("ProtocolType", .str "HTTP"), ("Name", .str name)] ++
        (match description with
         | some d => [("Description", .str d)]
         | none => [])
      tags := []
      metadata := [] }
  { name := name
    clean_name := clean
    description := description
    resources := [(.str api.title, api)]
    t_api := api }

/-- The valid log-format names checked by `HttpApi.add_stage`. -/
def logFormats : List String := ["none", "clf", "json", "xml", "csv"]

/-- Is `pat` a prefix of `l`? -/
def isPrefixChars : List Char → List Char → Bool
  | [], _ => true
  | _ :: _, [] => false
  | a :: as, b :: bs => a = b && isPrefixChars as bs

/-- Does `pat` occur as a contiguous sublist of `l`? -/
def containsChars : List Char → List Char → Bool
  | [], pat => isPrefixChars pat []
  | l@(_ :: rest), pat => isPrefixChars pat l || containsChars rest pat

/-- Python `pat in s`: substring containment. -/
def containsSubstr (s pat : String) : Bool :=
  containsChars s.data pat.data

/-- The CLF access-log format string of `add_stage`. -/
def clfFormat : String :=
  "$context.identity.sourceIp - - [$context.requestTime] \"$context.httpMethod $context.routeKey $context.protocol\" $context.status $context.responseLength $context.requestId"

/-- The JSON access-log format string of `add_stage` (the `json.dumps` output
of the literal dictionary in the source). -/
def jsonFormat : String :=
  "\x7b\"requestId\": \"$context.requestId\", \"ip\": \"$context.identity.sourceIp\", \"requestTime\": \"$context.requestTime\", \"httpMethod\": \"$context.httpMethod\", \"routeKey\": \"$context.routeKey\", \"status\": \"$context.status\", \"protocol\": \"$context.protocol\", \"responseLength\": \"$context.responseLength\"\x7d"

/-- The XML access-log format string of `add_stage`. -/
def xmlFormat : String :=
  "<request id=\"$context.requestId\"> <ip>$context.identity.sourceIp</ip> <requestTime>$context.requestTime</requestTime> <httpMethod>$context.httpMethod</httpMethod> <routeKey>$context.routeKey</routeKey> <status>$context.status</status> <protocol>$context.protocol</protocol> <responseLength>$context.responseLength</responseLength> </request>"

/-- The CSV access-log format string of `add_stage`. -/
def csvFormat : String :=
  "$context.identity.sourceIp,$context.requestTime,$context.httpMethod,$context.routeKey,$context.protocol,$context.status,$context.responseLength,$context.requestId"

/-- The `AccessLogSettings` object built by `add_stage` when logging is
enabled.  `Format` is only set for the four named formats; for a custom
format (accepted through the `$context.requestId` check) it stays unset. -/
def accessLogSettingsRes (clean_name stage_name log_format : String) : Resource :=
  { rtype := "AccessLogSettings"
    title := ""
    props := [("DestinationArn", .join ":"
        [.str "arn", .str "aws", .str "logs", .regionPseudo, .accountIdPseudo,
         .str (clean_name ++ "HttpApi"), .str (alphanum stage_name)])] ++
      (if strToLower log_format = "clf" then [("Format", .str clfFormat)]
       else if strToLower log_format = "json" then [("Format", .str jsonFormat)]
       else if strToLower log_format = "xml" then [("Format", .str xmlFormat)]
       else if strToLower log_format = "csv" then [("Format", .str csvFormat)]
       else [])
    tags := []
    metadata := [] }

/-- `HttpApi.add_stage`.  The Python method returns `None` and stores nothing;
the embedding returns the unchanged object together with the `Stage` resource
and the optional `AccessLogSettings` it constructed and dropped, so that the
construction stays observable. -/
def add_stage (api : HttpApi) (name : String) (auto_deploy : Bool)
    (log_format : String) :
    Except String (HttpApi × Resource × Option Resource) :=
  if logFormats.contains (strToLower log_format) ∨
      containsSubstr log_format "$context.requestId" then
    let api_stage : Resource :=
      { rtype := "AWS::ApiGatewayV2::Stage"
        title := alphanum name ++ "Stage"
        props := [("ApiId", .ref api.t_api.title), ("StageName", .str name),
                  ("AutoDeploy", .bool auto_deploy)]
        tags := []
        metadata := [] }
    let api_stage_log : Option Resource :=
      if strToLower log_format ≠ "none" then
        some (accessLogSettingsRes api.clean_name name log_format)
      else
        none
    .ok (api, api_stage, api_stage_log)
  else
    .error (log_format ++ " is not a valid log format")

/-- The valid HTTP methods checked by `HttpApi.add_route`. -/
def httpMethods : List String :=
  ["ANY", "GET", "POST", "PUT", "PATCH", "HEAD", "DELETE", "OPTIONS"]

/-- The `Integration` resource built by `add_route`. -/
def routeIntegrationRes (apiTitle path target http_method : String)
    (timeout : Nat) (description : Option String) : Resource :=
  { rtype := "AWS::ApiGatewayV2::Integration"
    title := alphanum path ++ "Integration"
    props := [("ApiId", .ref apiTitle)] ++
      (match description with
       | some d => [("Description", .str d)]
       | none => []) ++
      [("IntegrationMethod", .str http_method), ("IntegrationUri", .str target)] ++
      (if (strToLower target).take 5 = "http:" ∨ (strToLower target).take 6 = "https:" then
        [("IntegrationType", .str "HTTP_PROXY"), ("PayloadFormatVersion", .str "1.0")]
       else
        [("IntegrationType", .str "AWS_PROXY"), ("PayloadFormatVersion", .str "2.0")]) ++
      [("TimeoutInMillis", .nat timeout)]
    tags := []
    metadata := [] }

/-- The `Route` resource built by `add_route`. -/
def routeRouteRes (apiTitle path http_method : String)
    (description : Option String) : Resource :=
  { rtype := "AWS::ApiGatewayV2::Route"
    title := alphanum path ++ "Route"
    props := [("ApiId", .ref apiTitle)] ++
      (match description with
       | some d => [("OperationName", .str d)]
       | none => []) ++
      [("RouteKey", .str (http_method ++ " /" ++ path)),
       ("Target", .join "/" [.str "integrations", .ref (alphanum path ++ "Integration")])]
    tags := []
    metadata := [] }

/-- `HttpApi.add_route`.  The method raises (second component `some msg`)
before touching any state when the HTTP method is invalid; otherwise it
stores the Integration under its title string and the Route under the Route
object itself. -/
def add_route (api : HttpApi) (path target http_method : String)
    (timeout : Nat) (description : Option String) : HttpApi × Option String :=
  if ¬ httpMethods.contains (strToUpper http_method) then
    (api, some (http_method ++ " is not a valid HTTP METHOD"))
  else
    let api_integration := routeIntegrationRes api.t_api.title path target
      http_method timeout description
    let api_route := routeRouteRes api.t_api.title path http_method description
    ({ api with
       resources := hdictSet
         (hdictSet api.resources (.str api_integration.title) api_integration)
         (.res api_route) api_route },
     none)

/-! ### Derived definitions used by the proofs -/

/-- The decimal digit list of a natural number, most significant digit
first; reference definition used to reason about `Nat.repr`. -/
def decDigits (n : Nat) : List Char :=
  if _h : n < 10 then [Nat.digitChar n]
  else decDigits (n / 10) ++ [Nat.digitChar (n % 10)]
decreasing_by exact Nat.div_lt_self (by omega) (by omega)

/-- Evaluating a digit string back to a number. -/
def digitsToNat (l : List Char) : Nat :=
  l.foldl (fun a c => 10 * a + (c.toNat - 48)) 0

/-- The resources one loop iteration of `multiaz_subnets` (`src/ec2.py`)
emits, once the local id variables have reached their stable values. -/
def ec2Chunk (name_pfx pfx : String) (vpcId : RVal) (naclId rtId : Option RVal)
    (q : Nat × NetSegment) : List Resource :=
  ec2Subnet name_pfx pfx vpcId q.1 q.2 ::
    ((match naclId with
      | some v => [naclAssociation (pfx ++ Nat.repr (q.1 + 1)) v]
      | none => []) ++
     (match rtId with
      | some v => [routeTableAssociation (pfx ++ Nat.repr (q.1 + 1)) v]
      | none => []))

/-- The resources one loop iteration of `multiaz_subnets`
(`src/__init__.py`) emits. -/
def initChunk (name_pfx pfx : String) (vpcId : RVal) (naclId rtId : Option RVal)
    (q : Nat × NetSegment) : List Resource :=
  initSubnet name_pfx pfx vpcId q.1 q.2 ::
    ((match naclId with
      | some v => [naclAssociation (pfx ++ Nat.repr (q.1 + 1)) v]
      | none => []) ++
     (match rtId with
      | some v => [routeTableAssociation (pfx ++ Nat.repr (q.1 + 1)) v]
      | none => []))

/-- The value the local `vpc_id` variable holds after the initial `None`
check: the id string when given, otherwise a `Ref` to the `vpc` resource. -/
def vpcIdVal (vpc vpc_id : Option String) : RVal :=
  match vpc_id with
  | some s => .str s
  | none => .ref (vpc.getD "")

/-- The stable value of the local `network_acl_id` / `route_table_id`
variable inside the loop: the supplied id takes precedence, otherwise a
`Ref` to the supplied resource, otherwise nothing. -/
def effId (res idStr : Option String) : Option RVal :=
  updateId (idStr.map RVal.str) res

/-- The title of the `index`-th subnet produced by either variant of
`multiaz_subnets` with name prefix `name_pfx` (`f"{prefix}{index+1}"`). -/
def subnetTitleOf (name_pfx : String) (index : Nat) : String :=
  pfxOf name_pfx ++ Nat.repr (index + 1)

/-- Is `r` a `SubnetNetworkAclAssociation` whose `SubnetId` references the
subnet with the given title? -/
def isNaclAssocFor (subnetTitle : String) (r : Resource) : Bool :=
  decide (r.rtype = "AWS::EC2::SubnetNetworkAclAssociation" ∧
    r.props.lookup "SubnetId" = some (RVal.ref subnetTitle))

/-- Is `r` a `SubnetRouteTableAssociation` whose `SubnetId` references the
subnet with the given title? -/
def isRtAssocFor (subnetTitle : String) (r : Resource) : Bool :=
  decide (r.rtype = "AWS::EC2::SubnetRouteTableAssociation" ∧
    r.props.lookup "SubnetId" = some (RVal.ref subnetTitle))

/-- The id actually used for an association when a network ACL / route table
is supplied: the `*_id` argument takes precedence, otherwise a `Ref` to the
resource argument. -/
def suppliedId (res idStr : Option String) : RVal :=
  match idStr with
  | some s => .str s
  | none => .ref (res.getD "")

/-- A concrete run of `multiaz_subnets` used by the C3 witness. -/
def c3run : List Resource :=
  [{ rtype := "AWS::EC2::Subnet"
     title := "Appnet1"
     props := [("AvailabilityZone", RVal.str "ra"),
               ("CidrBlock", RVal.cidr { base := 0, len := 24 }),
               ("VpcId", RVal.ref "MyVpc")]
     tags := [("Name", "app net A")]
     metadata := [("az", RVal.str "ra"), ("az_index", RVal.str "A"),
                  ("suffix", RVal.nat 1)] },
   { rtype := "AWS::EC2::SubnetNetworkAclAssociation"
     title := "Appnet1NaclAssociation"
     props := [("SubnetId", RVal.ref "Appnet1"), ("NetworkAclId", RVal.ref "Nacl")]
     tags := []
     metadata := [] },
   { rtype := "AWS::EC2::SubnetRouteTableAssociation"
     title := "Appnet1RouteAssociation"
     props := [("SubnetId", RVal.ref "Appnet1"), ("RouteTableId", RVal.str "rtb-1")]
     tags := []
     metadata := [] }]

/-- Forget the tags and the metadata of a resource (the two attributes in
which the two `multiaz_subnets` variants differ on subnets). -/
def scrub (r : Resource) : Resource :=
  { r with tags := [], metadata := [] }

/-- The result of the concrete `src/__init__.py` run used by the C8 witness. -/
def c8runInit : List Resource :=
  [{ rtype := "AWS::EC2::Subnet"
     title := "Appnet1"
     props := [("AvailabilityZone", RVal.str "ra"),
               ("CidrBlock", RVal.cidr { base := 0, len := 24 }),
               ("VpcId", RVal.ref "MyVpc")]
     tags := [("Name", "app net 1(A)")]
     metadata := [] },
   { rtype := "AWS::EC2::SubnetNetworkAclAssociation"
     title := "Appnet1NaclAssociation"
     props := [("SubnetId", RVal.ref "Appnet1"), ("NetworkAclId", RVal.ref "Nacl")]
     tags := []
     metadata := [] },
   { rtype := "AWS::EC2::SubnetRouteTableAssociation"
     title := "Appnet1RouteAssociation"
     props := [("SubnetId", RVal.ref "Appnet1"), ("RouteTableId", RVal.str "rtb-1")]
     tags := []
     metadata := [] }]

/-- The `HttpApi` obtained by one successful `add_route` call, used to show
that a second identical call does not add two more entries. -/
def c10api1 : HttpApi :=
  (add_route (HttpApi.init "x" none) "p" "t" "GET" 10000 none).1

/-- Write a list of resources into `_r`, each under its own title. -/
def rFold (d : List (String × Resource)) (ws : List Resource) :
    List (String × Resource) :=
  ws.foldl (fun d r => dictSet d r.title r) d

/-- The resources one iteration of `add_public_subnet_group` (with
`create_nat_gateways=True`) writes into `_r`, in write order: the subnet, its
EIP, NAT gateway, private route table and NAT route, then the two
associations coming from `multiaz_subnets`. -/
def pubChunkWrites (name_pfx vpcTitle : String) (vpcId nv rv : RVal)
    (q : Nat × NetSegment) : List Resource :=
  let sub := ec2Subnet name_pfx (pfxOf name_pfx) vpcId q.1 q.2
  let az := strToLower q.2.az
  let azi := lastUpper q.2.az
  [sub,
   eipRes (q.1 + 1),
   natGwRes sub.title az azi (q.1 + 1),
   privRouteTableRes vpcTitle az azi (q.1 + 1),
   natRouteRes azi ("PrivRouteTable" ++ Nat.repr (q.1 + 1))
     ("NatGw" ++ Nat.repr (q.1 + 1)),
   naclAssociation sub.title nv,
   routeTableAssociation sub.title rv]

/-- The NAT gateways created by `add_public_subnet_group`, in order. -/
def pubGws (name_pfx : String) (l : List (Nat × NetSegment)) : List Resource :=
  l.map (fun q => natGwRes (pfxOf name_pfx ++ Nat.repr (q.1 + 1))
    (strToLower q.2.az) (lastUpper q.2.az) (q.1 + 1))

/-- The private route tables created by `add_public_subnet_group`, in order. -/
def pubRts (vpcTitle : String) (l : List (Nat × NetSegment)) : List Resource :=
  l.map (fun q => privRouteTableRes vpcTitle (strToLower q.2.az)
    (lastUpper q.2.az) (q.1 + 1))

/-- The full `_r` write sequence of an `add_public_subnet_group` call with
NAT gateways enabled. -/
def pubWrites (t : VpcTemplate) (name_pfx : String)
    (l : List (Nat × NetSegment)) : List Resource :=
  l.flatMap (pubChunkWrites name_pfx t.vpc.title (RVal.ref t.vpc.title)
    (RVal.ref t.public_nacl.title) (RVal.ref t.public_route_table.title))

/-- A bare resource used to populate the concrete template state below. -/
def c4res (ty ti : String) : Resource :=
  { rtype := ty, title := ti, props := [], tags := [], metadata := [] }

/-- A concrete `VpcTemplate` state for the C4/C5 witnesses. -/
def c4t0 : VpcTemplate :=
  { name := "VPC", region := ⟨"r", ["ra"]⟩, cidr_block := ⟨0, 16⟩, r := [],
    nat_gateways := [], natted_route_tables := [],
    vpc := c4res "AWS::EC2::VPC" "VPCVpc",
    public_nacl := c4res "AWS::EC2::NetworkAcl" "PubNacl",
    public_route_table := c4res "AWS::EC2::RouteTable" "PubRouteTable",
    internal_nacl := c4res "AWS::EC2::NetworkAcl" "InternalNacl" }

/-- The single net segment of the concrete run. -/
def c4seg : NetSegment := ⟨"ra", ⟨0, 24⟩⟩

/-- The state after `add_public_subnet_group(c4t0, "pub", 0.0.0.0/24, 1,
create_nat_gateways=True)`. -/
def c4t2 : VpcTemplate :=
  { c4t0 with
    r := [("Pub1", ec2Subnet "pub" "Pub" (RVal.ref "VPCVpc") 0 c4seg),
          ("EipNatGw1", eipRes 1),
          ("NatGw1", natGwRes "Pub1" "ra" "A" 1),
          ("PrivRouteTable1", privRouteTableRes "VPCVpc" "ra" "A" 1),
          ("NatRouteA", natRouteRes "A" "PrivRouteTable1" "NatGw1"),
          ("Pub1NaclAssociation", naclAssociation "Pub1" (RVal.ref "PubNacl")),
          ("Pub1RouteAssociation",
            routeTableAssociation "Pub1" (RVal.ref "PubRouteTable"))]
    nat_gateways := [natGwRes "Pub1" "ra" "A" 1]
    natted_route_tables := [privRouteTableRes "VPCVpc" "ra" "A" 1] }

instance : Inhabited Resource :=
  ⟨{ rtype := "", title := "", props := [], tags := [], metadata := [] }⟩

/-- The natted route table `add_natted_subnet_group` picks for an
availability zone (the first with matching `Metadata["az"]`). -/
def selRt (rts : List Resource) (az : String) : Resource :=
  (findNattedRt rts az).getD default

/-- The resources one iteration of `add_natted_subnet_group` writes into
`_r`, in write order: the subnet, its route-table association, then the
network-ACL association coming from `multiaz_subnets`. -/
def nattedChunkWrites (name_pfx naclTitle : String) (vpcId : RVal)
    (rts : List Resource) (q : Nat × NetSegment) : List Resource :=
  let sub := ec2Subnet name_pfx (pfxOf name_pfx) vpcId q.1 q.2
  [sub,
   routeTableAssociation sub.title
     (.ref (selRt rts (strToLower q.2.az)).title),
   naclAssociation sub.title (.ref naclTitle)]


/-- A concrete state whose `natted_route_tables` has a route table in zone
`ra`. -/
def c5t0 : VpcTemplate :=
  { c4t0 with natted_route_tables := [privRouteTableRes "VPCVpc" "ra" "A" 1] }

/-- The state after `add_natted_subnet_group(c5t0, 0.0.0.0/24, "priv", 1)`. -/
def c5t2 : VpcTemplate :=
  { c5t0 with
    r := [("Priv1", ec2Subnet "priv" "Priv" (RVal.ref "VPCVpc") 0 c4seg),
          ("Priv1RouteAssociation",
            routeTableAssociation "Priv1" (RVal.ref "PrivRouteTable1")),
          ("Priv1NaclAssociation",
            naclAssociation "Priv1" (RVal.ref "InternalNacl"))] }

/-! ### Decimal representation: `Nat.repr` is injective -/

theorem toDigitsCore_eq_decDigits :
    ∀ (f n : Nat) (acc : List Char), n < f →
      Nat.toDigitsCore 10 f n acc = decDigits n ++ acc := by
  intro f
  induction f with
  | zero => intro n acc h; omega
  | succ f ih =>
    intro n acc h
    have hdiv10 : n / 10 < n ∨ n < 10 := by
      rcases Nat.lt_or_ge n 10 with hn | hn
      · exact Or.inr hn
      · exact Or.inl (Nat.div_lt_self (by omega) (by omega))
    by_cases h0 : n / 10 = 0
    · have hn10 : n < 10 := by
        rcases Nat.lt_or_ge n 10 with hn | hn
        · exact hn
        · exact absurd h0 (by
            have : 1 ≤ n / 10 := (Nat.le_div_iff_mul_le (by omega)).mpr (by omega)
            omega)
      simp only [Nat.toDigitsCore, h0, if_true]
      rw [decDigits, dif_pos hn10, Nat.mod_eq_of_lt hn10]
      rfl
    · have hn10 : ¬ n < 10 := by
        intro hn
        exact h0 (Nat.div_eq_of_lt hn)
      have hlt : n / 10 < f := by
        rcases hdiv10 with hd | hd
        · omega
        · exact absurd hd hn10
      simp only [Nat.toDigitsCore, h0, if_false]
      rw [ih (n / 10) (Nat.digitChar (n % 10) :: acc) hlt]
      conv_rhs => rw [decDigits]
      rw [dif_neg hn10, List.append_assoc]
      rfl

theorem repr_eq_decDigits (n : Nat) : Nat.repr n = (decDigits n).asString := by
  show (Nat.toDigits 10 n).asString = _
  rw [Nat.toDigits, toDigitsCore_eq_decDigits (n + 1) n [] (by omega), List.append_nil]

theorem digitChar_sub_48 (n : Nat) (h : n < 10) : (Nat.digitChar n).toNat - 48 = n := by
  interval_cases n <;> decide

theorem foldl_decDigits (n : Nat) :
    ∀ a : Nat, List.foldl (fun a c => 10 * a + (c.toNat - 48)) a (decDigits n) =
      a * 10 ^ (decDigits n).length + n := by
  induction n using Nat.strong_induction_on with
  | _ n ih =>
    intro a
    by_cases h : n < 10
    · rw [decDigits, dif_pos h]
      simp only [List.foldl_cons, List.foldl_nil, List.length_cons, List.length_nil]
      rw [digitChar_sub_48 n h]
      ring_nf
    · rw [decDigits, dif_neg h, List.foldl_append,
        ih (n / 10) (Nat.div_lt_self (by omega) (by omega)) a]
      simp only [List.foldl_cons, List.foldl_nil, List.length_append, List.length_cons,
        List.length_nil]
      rw [digitChar_sub_48 (n % 10) (Nat.mod_lt _ (by omega))]
      rw [pow_succ]
      generalize (10 : Nat) ^ (decDigits (n / 10)).length = X
      have hx : 10 * (a * X + n / 10) + n % 10 = a * (X * 10) + (10 * (n / 10) + n % 10) := by
        ring
      rw [hx, Nat.div_add_mod]

theorem digitsToNat_decDigits (n : Nat) : digitsToNat (decDigits n) = n := by
  have h := foldl_decDigits n 0
  simpa [digitsToNat] using h

theorem nat_repr_injective : Function.Injective Nat.repr := by
  intro m n h
  rw [repr_eq_decDigits, repr_eq_decDigits] at h
  have hd : decDigits m = decDigits n := by
    have hdata := congrArg String.data h
    simpa [List.asString] using hdata
  have := congrArg digitsToNat hd
  rwa [digitsToNat_decDigits, digitsToNat_decDigits] at this

theorem append_repr_inj {s : String} {a b : Nat}
    (h : s ++ Nat.repr a = s ++ Nat.repr b) : a = b := by
  apply nat_repr_injective
  have hdata := congrArg String.data h
  rw [String.data_append, String.data_append] at hdata
  have hcancel := List.append_cancel_left hdata
  exact String.ext hcancel

theorem subnet_suffix_ne {s : String} {a b : Nat} (h : a ≠ b) :
    s ++ Nat.repr a ≠ s ++ Nat.repr b := fun hc => h (append_repr_inj hc)

/-! ### Counting over chunked lists -/

theorem countP_flatMap_zero {α β : Type _} (chunk : α → List β) (p : β → Bool) :
    ∀ l : List α, (∀ x ∈ l, (chunk x).countP p = 0) →
      (l.flatMap chunk).countP p = 0 := by
  intro l
  induction l with
  | nil => simp
  | cons a l ih =>
    intro hall
    rw [List.flatMap_cons, List.countP_append, hall a (by simp), ih]
    intro x hx
    exact hall x (by simp [hx])

theorem countP_flatMap_unique {α β : Type _} (chunk : α → List β) (p : β → Bool)
    (key : α → Nat) (i : Nat) :
    ∀ l : List α, (l.map key).Nodup → i ∈ l.map key →
      (∀ x ∈ l, (chunk x).countP p = if key x = i then 1 else 0) →
      (l.flatMap chunk).countP p = 1 := by
  intro l
  induction l with
  | nil => simp
  | cons a l ih =>
    intro hnd hmem hc
    rw [List.flatMap_cons, List.countP_append]
    rw [List.map_cons, List.nodup_cons] at hnd
    by_cases hk : key a = i
    · rw [hc a (by simp), if_pos hk]
      have hz : (l.flatMap chunk).countP p = 0 := by
        apply countP_flatMap_zero
        intro x hx
        have hne : key x ≠ i := fun hxk =>
          hnd.1 (by rw [hk, ← hxk]; exact List.mem_map_of_mem key hx)
        rw [hc x (by simp [hx]), if_neg hne]
      omega
    · rw [hc a (by simp), if_neg hk]
      have hmem2 : i ∈ l.map key := by
        rcases (by simpa using hmem : i = key a ∨ ∃ x ∈ l, key x = i) with hh | ⟨x, hx, hxk⟩
        · exact absurd hh.symm hk
        · exact hxk ▸ List.mem_map_of_mem key hx
      rw [ih hnd.2 hmem2 (fun x hx => hc x (by simp [hx]))]

/-! ### Closed forms for the `multiaz_subnets` loops -/

theorem updateId_idem (x : Option RVal) (res : Option String) :
    updateId (updateId x res) res = updateId x res := by
  cases x <;> cases res <;> rfl

theorem multiazGoEc2_eq_flatMap (name_pfx pfx : String) (vpcId : RVal)
    (network_acl route_table : Option String) :
    ∀ (l : List (Nat × NetSegment)) (naclId rtId : Option RVal),
      multiazGoEc2 name_pfx pfx vpcId network_acl route_table l naclId rtId =
        l.flatMap (ec2Chunk name_pfx pfx vpcId (updateId naclId network_acl)
          (updateId rtId route_table)) := by
  intro l
  induction l with
  | nil => intro naclId rtId; rfl
  | cons q rest ih =>
    intro naclId rtId
    cases q with
    | mk index seg =>
      rw [List.flatMap_cons]
      show (ec2Subnet name_pfx pfx vpcId index seg) :: _ = _
      rw [ih (updateId naclId network_acl) (updateId rtId route_table),
        updateId_idem, updateId_idem]
      simp only [ec2Chunk, List.cons_append, List.append_assoc]
      rfl

theorem multiazGoInit_eq_flatMap (name_pfx pfx : String) (vpcId : RVal)
    (network_acl route_table : Option String) :
    ∀ (l : List (Nat × NetSegment)) (naclId rtId : Option RVal),
      multiazGoInit name_pfx pfx vpcId network_acl route_table l naclId rtId =
        l.flatMap (initChunk name_pfx pfx vpcId (updateId naclId network_acl)
          (updateId rtId route_table)) := by
  intro l
  induction l with
  | nil => intro naclId rtId; rfl
  | cons q rest ih =>
    intro naclId rtId
    cases q with
    | mk index seg =>
      rw [List.flatMap_cons]
      show (initSubnet name_pfx pfx vpcId index seg) :: _ = _
      rw [ih (updateId naclId network_acl) (updateId rtId route_table),
        updateId_idem, updateId_idem]
      simp only [initChunk, List.cons_append, List.append_assoc]
      rfl

theorem multiaz_subnets_ok_iff (name_pfx : String) (cidr_block : Cidr)
    (region : Region) (vpc vpc_id : Option String) (no_of_subnets : Nat)
    (network_acl network_acl_id route_table route_table_id : Option String)
    (rs : List Resource) :
    multiaz_subnets name_pfx cidr_block region vpc vpc_id no_of_subnets
        network_acl network_acl_id route_table route_table_id = .ok rs ↔
      ¬ (vpc = none ∧ vpc_id = none) ∧
      ∃ segs, split_net_across_zones cidr_block region no_of_subnets = .ok segs ∧
        rs = segs.enum.flatMap (ec2Chunk name_pfx
          (pfxOf name_pfx) (vpcIdVal vpc vpc_id)
          (effId network_acl network_acl_id) (effId route_table route_table_id)) := by
  unfold multiaz_subnets
  by_cases hv : vpc = none ∧ vpc_id = none
  · simp [hv]
  · rw [if_neg hv]
    cases hsplit : split_net_across_zones cidr_block region no_of_subnets with
    | error e => simp [hsplit, hv]
    | ok segs =>
      simp only [multiazGoEc2_eq_flatMap, Except.ok.injEq, vpcIdVal, effId]
      constructor
      · intro hok
        exact ⟨hv, segs, rfl, hok.symm⟩
      · rintro ⟨-, segs2, hseg2, hrs⟩
        rw [hrs, ← hseg2]

theorem init_multiaz_subnets_ok_iff (name_pfx : String) (cidr_block : Cidr)
    (region : Region) (vpc vpc_id : Option String) (no_of_subnets : Nat)
    (network_acl network_acl_id route_table route_table_id : Option String)
    (rs : List Resource) :
    init_multiaz_subnets name_pfx cidr_block region vpc vpc_id no_of_subnets
        network_acl network_acl_id route_table route_table_id = .ok rs ↔
      ¬ (vpc = none ∧ vpc_id = none) ∧
      ∃ segs, split_net_across_zones cidr_block region no_of_subnets = .ok segs ∧
        rs = segs.enum.flatMap (initChunk name_pfx
          (pfxOf name_pfx) (vpcIdVal vpc vpc_id)
          (effId network_acl network_acl_id) (effId route_table route_table_id)) := by
  unfold init_multiaz_subnets
  by_cases hv : vpc = none ∧ vpc_id = none
  · simp [hv]
  · rw [if_neg hv]
    cases hsplit : split_net_across_zones cidr_block region no_of_subnets with
    | error e => simp [hsplit, hv]
    | ok segs =>
      simp only [multiazGoInit_eq_flatMap, Except.ok.injEq, vpcIdVal, effId]
      constructor
      · intro hok
        exact ⟨hv, segs, rfl, hok.symm⟩
      · rintro ⟨-, segs2, hseg2, hrs⟩
        rw [hrs, ← hseg2]

theorem log2fuel_two_pow : ∀ fuel k, 2 ^ k ≤ fuel → log2fuel fuel (2 ^ k) = k := by
  intro fuel
  induction fuel with
  | zero =>
    intro k hk
    have hpos : 0 < 2 ^ k := pow_pos (by omega) k
    omega
  | succ fuel ih =>
    intro k hk
    cases k with
    | zero => rfl
    | succ k =>
      have h1 : 0 < 2 ^ k := pow_pos (by omega) k
      have h2 : 2 ≤ 2 ^ (k + 1) := by
        rw [pow_succ]
        omega
      have hdiv : 2 ^ (k + 1) / 2 = 2 ^ k := by
        rw [pow_succ]
        exact Nat.mul_div_cancel _ (by omega)
      simp only [log2fuel, if_pos h2, hdiv]
      rw [ih k (by rw [pow_succ] at hk; omega)]

theorem slog2_two_pow (k : Nat) : slog2 (2 ^ k) = k :=
  log2fuel_two_pow (2 ^ k) k (Nat.le_refl _)

/-! ### Claim C1 -/

/-- C1: for every base CIDR block, region, and desired subnet count that is a
power of two, the CIDR-splitting step invoked by `multiaz_subnets`
(`split_net_across_zones`) succeeds exactly when the count does not exceed
the address space nor the number of availability zones, and on success it
deterministically produces that many equally sized sub-blocks (one per
subnet, hence no more than the number of zones), assigning block `i` to zone
`i % N` — a stable round-robin order. -/
theorem c1_split_net_across_zones_contract (cidr : Cidr) (region : Region)
    (k n : Nat) (hn : n = 2 ^ k) :
    ((∃ segs, split_net_across_zones cidr region n = .ok segs) ↔
      n ≤ 2 ^ (32 - cidr.len) ∧ n ≤ region.zones.length) ∧
    (∀ segs, split_net_across_zones cidr region n = .ok segs →
      segs.length = n ∧ n ≤ region.zones.length ∧
      ∀ i (hi : i < segs.length),
        segs[i].az = region.zones.getD (i % region.zones.length) "" ∧
        segs[i].cidr.len = cidr.len + k ∧
        segs[i].cidr.base = cidr.base + i * 2 ^ (32 - (cidr.len + k))) := by
  have hlog : slog2 n = k := hn ▸ slog2_two_pow k
  constructor
  · unfold split_net_across_zones
    by_cases h1 : 2 ^ (32 - cidr.len) < n
    · rw [if_pos h1]
      apply iff_of_false
      · simp
      · intro hcond
        omega
    · rw [if_neg h1]
      by_cases h2 : region.zones.length < n
      · rw [if_pos h2]
        apply iff_of_false
        · simp
        · intro hcond
          omega
      · rw [if_neg h2]
        apply iff_of_true
        · exact ⟨_, rfl⟩
        · exact ⟨by omega, by omega⟩
  · intro segs hok
    unfold split_net_across_zones at hok
    by_cases h1 : 2 ^ (32 - cidr.len) < n
    · rw [if_pos h1] at hok
      exact absurd hok (by simp)
    · rw [if_neg h1] at hok
      by_cases h2 : region.zones.length < n
      · rw [if_pos h2] at hok
        exact absurd hok (by simp)
      · rw [if_neg h2] at hok
        injection hok with hok
        subst hok
        refine ⟨by simp, by omega, ?_⟩
        intro i hi
        have hi2 : i < n := by simpa using hi
        simp [List.getElem_map, List.getElem_range, hlog]

theorem c1_split_net_across_zones_contract_witness :
    ∃ segs, split_net_across_zones ⟨0, 24⟩ ⟨"r", ["ra", "rb"]⟩ 2 = .ok segs :=
  ((c1_split_net_across_zones_contract ⟨0, 24⟩ ⟨"r", ["ra", "rb"]⟩ 1 2 rfl).1).mpr
    (by decide)

/-! ### Claim C2 -/

/-- C2: `multiaz_subnets` (src/ec2.py) raises `ValueError` if and only if
both `vpc` and `vpc_id` are `None`; when at least one of them is provided,
any failure of the call is only a propagated error of the external
`split_net_across_zones`, never a raise of its own. -/
theorem c2_multiaz_subnets_value_error (name_pfx : String) (cidr_block : Cidr)
    (region : Region) (vpc vpc_id : Option String) (no_of_subnets : Nat)
    (network_acl network_acl_id route_table route_table_id : Option String) :
    ((∃ msg, multiaz_subnets name_pfx cidr_block region vpc vpc_id no_of_subnets
        network_acl network_acl_id route_table route_table_id =
          .error (.valueError msg)) ↔ (vpc = none ∧ vpc_id = none)) ∧
    ((vpc ≠ none ∨ vpc_id ≠ none) →
      ∀ e, multiaz_subnets name_pfx cidr_block region vpc vpc_id no_of_subnets
          network_acl network_acl_id route_table route_table_id = .error e →
        ∃ s, e = .splitError s) := by
  unfold multiaz_subnets
  by_cases hv : vpc = none ∧ vpc_id = none
  · rw [if_pos hv]
    constructor
    · constructor
      · intro _
        exact hv
      · intro _
        exact ⟨"One of vpc or vpc_id must be specified", rfl⟩
    · intro hne
      rcases hne with hne | hne
      · exact absurd hv.1 hne
      · exact absurd hv.2 hne
  · rw [if_neg hv]
    cases hsplit : split_net_across_zones cidr_block region no_of_subnets with
    | error e =>
      constructor
      · simp [hv]
      · rintro - e2 he2
        simp only [Except.error.injEq] at he2
        exact ⟨e, he2.symm⟩
    | ok segs =>
      constructor
      · simp [hv]
      · rintro - e2 he2
        simp at he2

theorem c2_multiaz_subnets_value_error_witness :
    (∃ msg, multiaz_subnets "net" ⟨0, 24⟩ ⟨"r", ["ra"]⟩ none none 1
        none none none none = .error (.valueError msg)) ∧
    (∀ e, multiaz_subnets "net" ⟨0, 24⟩ ⟨"r", ["ra"]⟩ (some "MyVpc") none 1
        none none none none = .error e → ∃ s, e = .splitError s) :=
  ⟨(c2_multiaz_subnets_value_error "net" ⟨0, 24⟩ ⟨"r", ["ra"]⟩ none none 1
      none none none none).1.mpr ⟨rfl, rfl⟩,
   (c2_multiaz_subnets_value_error "net" ⟨0, 24⟩ ⟨"r", ["ra"]⟩ (some "MyVpc") none 1
      none none none none).2 (Or.inl (by simp))⟩

/-! ### Claim C3 -/

theorem split_ok_length {cidr : Cidr} {region : Region} {n : Nat}
    {segs : List NetSegment}
    (h : split_net_across_zones cidr region n = .ok segs) : segs.length = n := by
  unfold split_net_across_zones at h
  by_cases h1 : 2 ^ (32 - cidr.len) < n
  · rw [if_pos h1] at h
    exact absurd h (by simp)
  · rw [if_neg h1] at h
    by_cases h2 : region.zones.length < n
    · rw [if_pos h2] at h
      exact absurd h (by simp)
    · rw [if_neg h2] at h
      injection h with h
      rw [← h]
      simp

theorem effId_eq_some (res idStr : Option String)
    (h : res ≠ none ∨ idStr ≠ none) :
    effId res idStr = some (suppliedId res idStr) := by
  cases idStr with
  | some s => rfl
  | none =>
    cases res with
    | some t => rfl
    | none =>
      rcases h with hh | hh <;> exact absurd rfl hh

theorem countP_ec2Chunk_nacl (name_pfx pfx : String) (vpcId : RVal) (v : RVal)
    (rtId : Option RVal) (i : Nat) (q : Nat × NetSegment) :
    (ec2Chunk name_pfx pfx vpcId (some v) rtId q).countP
        (isNaclAssocFor (pfx ++ Nat.repr (i + 1))) =
      if q.1 = i then 1 else 0 := by
  rcases q with ⟨j, seg⟩
  by_cases hji : j = i
  · subst hji
    cases rtId <;>
      simp [ec2Chunk, ec2Subnet, naclAssociation, routeTableAssociation,
        isNaclAssocFor, List.countP_cons, List.countP_nil, List.lookup]
  · have hne : pfx ++ Nat.repr (j + 1) ≠ pfx ++ Nat.repr (i + 1) :=
      subnet_suffix_ne (by omega)
    cases rtId <;>
      simp [ec2Chunk, ec2Subnet, naclAssociation, routeTableAssociation,
        isNaclAssocFor, List.countP_cons, List.countP_nil, List.lookup, hne, hji]

theorem countP_ec2Chunk_rt (name_pfx pfx : String) (vpcId : RVal) (v : RVal)
    (naclId : Option RVal) (i : Nat) (q : Nat × NetSegment) :
    (ec2Chunk name_pfx pfx vpcId naclId (some v) q).countP
        (isRtAssocFor (pfx ++ Nat.repr (i + 1))) =
      if q.1 = i then 1 else 0 := by
  rcases q with ⟨j, seg⟩
  by_cases hji : j = i
  · subst hji
    cases naclId <;>
      simp [ec2Chunk, ec2Subnet, naclAssociation, routeTableAssociation,
        isRtAssocFor, List.countP_cons, List.countP_nil, List.lookup]
  · have hne : pfx ++ Nat.repr (j + 1) ≠ pfx ++ Nat.repr (i + 1) :=
      subnet_suffix_ne (by omega)
    cases naclId <;>
      simp [ec2Chunk, ec2Subnet, naclAssociation, routeTableAssociation,
        isRtAssocFor, List.countP_cons, List.countP_nil, List.lookup, hne, hji]

theorem flatMap_single {α β : Type _} (f : α → β) :
    ∀ l : List α, l.flatMap (fun x => [f x]) = l.map f := by
  intro l
  induction l with
  | nil => rfl
  | cons a l ih => simp [ih]

/-- C3: for every successful `multiaz_subnets` (src/ec2.py) call: when a
network ACL is supplied (resource or id), the returned list contains for each
subnet exactly one `SubnetNetworkAclAssociation` whose `SubnetId` references
that subnet; it is titled `"<subnet title>NaclAssociation"` and its
`NetworkAclId` is the supplied id, or a `Ref` to the supplied resource with
the id taking precedence (the membership conjunct exhibits exactly that
resource).  Likewise, for each subnet exactly one
`SubnetRouteTableAssociation` titled `"<subnet title>RouteAssociation"` when a
route table is supplied.  When neither is supplied the returned list consists
of exactly the subnet resources. -/
theorem c3_multiaz_subnets_associations (name_pfx : String) (cidr_block : Cidr)
    (region : Region) (vpc vpc_id : Option String) (no_of_subnets : Nat)
    (network_acl network_acl_id route_table route_table_id : Option String)
    (rs : List Resource)
    (hok : multiaz_subnets name_pfx cidr_block region vpc vpc_id no_of_subnets
      network_acl network_acl_id route_table route_table_id = .ok rs) :
    ((network_acl ≠ none ∨ network_acl_id ≠ none) →
      ∀ i < no_of_subnets,
        rs.countP (isNaclAssocFor (subnetTitleOf name_pfx i)) = 1 ∧
        naclAssociation (subnetTitleOf name_pfx i)
          (suppliedId network_acl network_acl_id) ∈ rs) ∧
    ((route_table ≠ none ∨ route_table_id ≠ none) →
      ∀ i < no_of_subnets,
        rs.countP (isRtAssocFor (subnetTitleOf name_pfx i)) = 1 ∧
        routeTableAssociation (subnetTitleOf name_pfx i)
          (suppliedId route_table route_table_id) ∈ rs) ∧
    (network_acl = none → network_acl_id = none → route_table = none →
      route_table_id = none →
      ∃ segs, split_net_across_zones cidr_block region no_of_subnets = .ok segs ∧
        rs = segs.enum.map (fun q =>
          ec2Subnet name_pfx (pfxOf name_pfx)
            (vpcIdVal vpc vpc_id) q.1 q.2)) := by
  rcases (multiaz_subnets_ok_iff name_pfx cidr_block region vpc vpc_id no_of_subnets
      network_acl network_acl_id route_table route_table_id rs).mp hok with
    ⟨-, segs, hsplit, hrs⟩
  have hlen : segs.length = no_of_subnets := split_ok_length hsplit
  have hnodup : (segs.enum.map Prod.fst).Nodup := by
    rw [List.enum_map_fst]
    exact List.nodup_range _
  refine ⟨?_, ?_, ?_⟩
  · intro hsup i hi
    rw [effId_eq_some network_acl network_acl_id hsup] at hrs
    have hil : i < segs.length := by omega
    have hqmem : (i, segs[i]) ∈ segs.enum := by
      have hi2 : i < segs.enum.length := by
        rw [List.enum_length]
        omega
      have hget := List.getElem_enum segs i hi2
      exact hget ▸ List.getElem_mem hi2
    constructor
    · rw [hrs]
      apply countP_flatMap_unique _ _ Prod.fst i _ hnodup
      · rw [List.enum_map_fst]
        exact List.mem_range.mpr (by omega)
      · intro q hq
        exact countP_ec2Chunk_nacl name_pfx _ _ _ _ i q
    · rw [hrs]
      apply List.mem_flatMap.mpr
      exact ⟨(i, segs[i]), hqmem, by simp [ec2Chunk, subnetTitleOf]⟩
  · intro hsup i hi
    rw [effId_eq_some route_table route_table_id hsup] at hrs
    have hil : i < segs.length := by omega
    have hqmem : (i, segs[i]) ∈ segs.enum := by
      have hi2 : i < segs.enum.length := by
        rw [List.enum_length]
        omega
      have hget := List.getElem_enum segs i hi2
      exact hget ▸ List.getElem_mem hi2
    constructor
    · rw [hrs]
      apply countP_flatMap_unique _ _ Prod.fst i _ hnodup
      · rw [List.enum_map_fst]
        exact List.mem_range.mpr (by omega)
      · intro q hq
        exact countP_ec2Chunk_rt name_pfx _ _ _ _ i q
    · rw [hrs]
      apply List.mem_flatMap.mpr
      refine ⟨(i, segs[i]), hqmem, ?_⟩
      cases hcase : effId network_acl network_acl_id <;>
        simp [ec2Chunk, subnetTitleOf]
  · intro h1 h2 h3 h4
    subst h1
    subst h2
    subst h3
    subst h4
    refine ⟨segs, hsplit, ?_⟩
    rw [hrs, ← flatMap_single]
    rfl

theorem c3_multiaz_subnets_associations_witness :
    c3run.countP (isNaclAssocFor (subnetTitleOf "app net" 0)) = 1 ∧
    naclAssociation (subnetTitleOf "app net" 0) (RVal.ref "Nacl") ∈ c3run ∧
    c3run.countP (isRtAssocFor (subnetTitleOf "app net" 0)) = 1 ∧
    routeTableAssociation (subnetTitleOf "app net" 0) (RVal.str "rtb-1") ∈ c3run := by
  have h := c3_multiaz_subnets_associations "app net" ⟨0, 24⟩ ⟨"r", ["ra"]⟩
    (some "MyVpc") none 1 (some "Nacl") none none (some "rtb-1") c3run rfl
  refine ⟨(h.1 (Or.inl (by simp)) 0 (by omega)).1,
    (h.1 (Or.inl (by simp)) 0 (by omega)).2,
    (h.2.1 (Or.inr (by simp)) 0 (by omega)).1,
    (h.2.1 (Or.inr (by simp)) 0 (by omega)).2⟩

/-! ### Claim C8 -/

theorem chunk_scrub (name_pfx pfx : String) (vpcId : RVal)
    (naclId rtId : Option RVal) (q : Nat × NetSegment) :
    (ec2Chunk name_pfx pfx vpcId naclId rtId q).map scrub =
      (initChunk name_pfx pfx vpcId naclId rtId q).map scrub := by
  cases naclId <;> cases rtId <;>
    simp [ec2Chunk, initChunk, ec2Subnet, initSubnet, scrub]

/-- C8: on every input where both succeed, the `src/ec2.py` and
`src/__init__.py` definitions of `multiaz_subnets` return lists of equal
length whose elements pairwise have equal titles and resource types, and
whose subnet elements agree on `AvailabilityZone`, `CidrBlock` and `VpcId`. -/
theorem c8_multiaz_subnets_variants_agree (name_pfx : String) (cidr_block : Cidr)
    (region : Region) (vpc vpc_id : Option String) (no_of_subnets : Nat)
    (network_acl network_acl_id route_table route_table_id : Option String)
    (rs1 rs2 : List Resource)
    (h1 : multiaz_subnets name_pfx cidr_block region vpc vpc_id no_of_subnets
      network_acl network_acl_id route_table route_table_id = .ok rs1)
    (h2 : init_multiaz_subnets name_pfx cidr_block region vpc vpc_id no_of_subnets
      network_acl network_acl_id route_table route_table_id = .ok rs2) :
    rs1.length = rs2.length ∧
    ∀ i (hi1 : i < rs1.length) (hi2 : i < rs2.length),
      rs1[i].title = rs2[i].title ∧
      rs1[i].rtype = rs2[i].rtype ∧
      (rs1[i].rtype = "AWS::EC2::Subnet" →
        rs1[i].props.lookup "AvailabilityZone" =
          rs2[i].props.lookup "AvailabilityZone" ∧
        rs1[i].props.lookup "CidrBlock" = rs2[i].props.lookup "CidrBlock" ∧
        rs1[i].props.lookup "VpcId" = rs2[i].props.lookup "VpcId") := by
  rcases (multiaz_subnets_ok_iff name_pfx cidr_block region vpc vpc_id no_of_subnets
      network_acl network_acl_id route_table route_table_id rs1).mp h1 with
    ⟨-, segs, hsplit, hrs1⟩
  rcases (init_multiaz_subnets_ok_iff name_pfx cidr_block region vpc vpc_id no_of_subnets
      network_acl network_acl_id route_table route_table_id rs2).mp h2 with
    ⟨-, segs2, hsplit2, hrs2⟩
  have hseq : segs = segs2 := Except.ok.inj (hsplit ▸ hsplit2)
  subst hseq
  have hms : rs1.map scrub = rs2.map scrub := by
    rw [hrs1, hrs2]
    generalize segs.enum = l
    induction l with
    | nil => rfl
    | cons a t ih =>
      simp only [List.flatMap_cons, List.map_append, ih, chunk_scrub]
  have hlen : rs1.length = rs2.length := by
    have hl := congrArg List.length hms
    simpa using hl
  refine ⟨hlen, ?_⟩
  intro i hi1 hi2
  have hg := congrArg (fun l => l[i]?) hms
  simp only [List.getElem?_map, List.getElem?_eq_getElem hi1,
    List.getElem?_eq_getElem hi2, Option.map_some'] at hg
  have hsc : scrub (rs1[i]) = scrub (rs2[i]) := Option.some.inj hg
  have ht := congrArg Resource.title hsc
  have hty := congrArg Resource.rtype hsc
  have hp := congrArg Resource.props hsc
  refine ⟨ht, hty, ?_⟩
  intro _
  exact ⟨congrArg (List.lookup "AvailabilityZone") hp,
    congrArg (List.lookup "CidrBlock") hp, congrArg (List.lookup "VpcId") hp⟩

theorem c8_multiaz_subnets_variants_agree_witness :
    c3run.length = c8runInit.length ∧
    c3run[0].title = c8runInit[0].title ∧
    c3run[0].props.lookup "AvailabilityZone" =
      c8runInit[0].props.lookup "AvailabilityZone" := by
  have h := c8_multiaz_subnets_variants_agree "app net" ⟨0, 24⟩ ⟨"r", ["ra"]⟩
    (some "MyVpc") none 1 (some "Nacl") none none (some "rtb-1") c3run c8runInit
    rfl rfl
  have hi := h.2 0 (by decide) (by decide)
  exact ⟨h.1, hi.1, (hi.2.2 (by decide)).1⟩

/-! ### Claim C7 -/

/-- C7: `HttpApi.add_stage` raises `ValueError` if and only if `log_format`,
lower-cased, is none of `none`, `clf`, `json`, `xml`, `csv` and `log_format`
does not contain the substring `"$context.requestId"`. -/
theorem c7_add_stage_value_error_iff (api : HttpApi) (name : String)
    (auto_deploy : Bool) (log_format : String) :
    (∃ msg, add_stage api name auto_deploy log_format = .error msg) ↔
      (strToLower log_format ∉ ["none", "clf", "json", "xml", "csv"] ∧
       containsSubstr log_format "$context.requestId" = false) := by
  unfold add_stage
  by_cases hc : logFormats.contains (strToLower log_format) ∨
      containsSubstr log_format "$context.requestId"
  · rw [if_pos hc]
    apply iff_of_false
    · simp
    · rcases hc with hc | hc
      · intro hcon
        exact hcon.1 (by simpa [logFormats, List.elem_iff] using hc)
      · intro hcon
        rw [hcon.2] at hc
        exact Bool.false_ne_true hc
  · rw [if_neg hc]
    push_neg at hc
    apply iff_of_true
    · exact ⟨_, rfl⟩
    · refine ⟨?_, ?_⟩
      · intro hmem
        exact hc.1 (by simpa [logFormats, List.elem_iff] using hmem)
      · simpa using hc.2

theorem c7_add_stage_value_error_iff_witness :
    strToLower "weird" ∉ ["none", "clf", "json", "xml", "csv"] ∧
    containsSubstr "weird" "$context.requestId" = false :=
  (c7_add_stage_value_error_iff (HttpApi.init "x" none) "dev" false "weird").mp
    ⟨"weird is not a valid log format", by decide⟩

/-! ### Claim C9 -/

/-- C9: every accepted `HttpApi.add_stage` call leaves the `resources`
mapping unchanged — the Stage and the access-log settings it constructs are
never stored on the object. -/
theorem c9_add_stage_resources_unchanged (api : HttpApi) (name : String)
    (auto_deploy : Bool) (log_format : String) (api2 : HttpApi)
    (stage : Resource) (log : Option Resource)
    (hok : add_stage api name auto_deploy log_format = .ok (api2, stage, log)) :
    api2.resources = api.resources := by
  unfold add_stage at hok
  by_cases hc : logFormats.contains (strToLower log_format) ∨
      containsSubstr log_format "$context.requestId"
  · rw [if_pos hc] at hok
    simp only [Except.ok.injEq, Prod.mk.injEq] at hok
    rw [← hok.1]
  · rw [if_neg hc] at hok
    exact absurd hok (by simp)

set_option maxRecDepth 8192 in
theorem c9_add_stage_resources_unchanged_witness :
    (HttpApi.init "x" none).resources = (HttpApi.init "x" none).resources :=
  c9_add_stage_resources_unchanged (HttpApi.init "x" none) "dev" false "clf"
    (HttpApi.init "x" none)
    { rtype := "AWS::ApiGatewayV2::Stage"
      title := "devStage"
      props := [("ApiId", RVal.ref "xHTTPApi"), ("StageName", RVal.str "dev"),
                ("AutoDeploy", RVal.bool false)]
      tags := []
      metadata := [] }
    (some
      { rtype := "AccessLogSettings"
        title := ""
        props := [("DestinationArn", RVal.join ":"
            [RAtom.str "arn", RAtom.str "aws", RAtom.str "logs",
             RAtom.regionPseudo, RAtom.accountIdPseudo,
             RAtom.str "xHttpApi", RAtom.str "dev"]),
          ("Format", RVal.str clfFormat)]
        tags := []
        metadata := [] })
    (by decide)

/-! ### Claim C6 -/

/-- C6: `HttpApi.add_route` raises `ValueError` if and only if the HTTP
method, upper-cased, is not one of ANY, GET, POST, PUT, PATCH, HEAD, DELETE,
OPTIONS; and when it raises, the `resources` mapping is unchanged. -/
theorem c6_add_route_value_error (api : HttpApi) (path target http_method : String)
    (timeout : Nat) (description : Option String) :
    (((add_route api path target http_method timeout description).2 ≠ none) ↔
      strToUpper http_method ∉
        ["ANY", "GET", "POST", "PUT", "PATCH", "HEAD", "DELETE", "OPTIONS"]) ∧
    ((add_route api path target http_method timeout description).2 ≠ none →
      (add_route api path target http_method timeout description).1.resources =
        api.resources) := by
  unfold add_route
  by_cases hc : httpMethods.contains (strToUpper http_method)
  · simp only [if_neg (not_not_intro hc)]
    constructor
    · apply iff_of_false
      · simp
      · intro hmem
        exact hmem (by simpa [httpMethods, List.elem_iff] using hc)
    · intro hne
      exact absurd rfl hne
  · simp only [if_pos hc]
    constructor
    · apply iff_of_true
      · simp
      · intro hmem
        exact hc (by simpa [httpMethods, List.elem_iff] using hmem)
    · intro _
      trivial

theorem c6_add_route_value_error_witness :
    (add_route (HttpApi.init "x" none) "p" "t" "BLAH" 10000 none).1.resources =
      (HttpApi.init "x" none).resources :=
  (c6_add_route_value_error (HttpApi.init "x" none) "p" "t" "BLAH" 10000 none).2
    (by decide)

/-! ### Claim C10 -/

/-- C10 counterexample: a successful `add_route` call on a state that already
contains an entry under the integration title (and an equal Route object)
gains zero entries, not two: the claim as stated fails. -/
theorem c10_add_route_two_entries_counterexample :
    (add_route c10api1 "p" "t" "GET" 10000 none).2 = none ∧
    (add_route c10api1 "p" "t" "GET" 10000 none).1.resources.length =
      c10api1.resources.length ∧
    ¬ ((add_route c10api1 "p" "t" "GET" 10000 none).1.resources.length =
      c10api1.resources.length + 2) := by
  decide

theorem hdictSet_fresh (d : List (HKey × Resource)) (k : HKey) (v : Resource)
    (h : ∀ p ∈ d, p.1 ≠ k) : hdictSet d k v = d ++ [(k, v)] := by
  have hno : ¬ (d.any (fun p => p.1 = k) = true) := by
    intro hany
    rcases List.any_eq_true.mp hany with ⟨p, hp, he⟩
    exact h p hp (of_decide_eq_true he)
  unfold hdictSet
  rw [if_neg hno]

theorem lookup_none_of_fresh {α β : Type _} [BEq α] [LawfulBEq α]
    (d : List (α × β)) (k : α) (h : ∀ p ∈ d, p.1 ≠ k) : d.lookup k = none := by
  induction d with
  | nil => rfl
  | cons p rest ih =>
    rcases p with ⟨k1, v⟩
    have hne : k1 ≠ k := h (k1, v) (by simp)
    cases hbeq : k == k1 with
    | false =>
      simp only [List.lookup, hbeq]
      exact ih (fun q hq => h q (by simp [hq]))
    | true =>
      exact absurd (eq_of_beq hbeq).symm hne

theorem string_append_left_cancel {s a b : String} (h : s ++ a = s ++ b) :
    a = b := by
  have hdata := congrArg String.data h
  rw [String.data_append, String.data_append] at hdata
  exact String.ext (List.append_cancel_left hdata)

/-- C10 (amended): after every successful `HttpApi.add_route` call on a state
with no prior entry under the integration's title string and none under a
Route object equal to the constructed one, the `resources` mapping gains
exactly two entries — the Integration under its title string
`"<alphanum(path)>Integration"` and the Route under the Route object itself —
and the call adds no entry under the Route's title string
`"<alphanum(path)>Route"`. -/
theorem c10_add_route_two_entries (api : HttpApi) (path target http_method : String)
    (timeout : Nat) (description : Option String)
    (hok : (add_route api path target http_method timeout description).2 = none)
    (hfresh1 : ∀ p ∈ api.resources, p.1 ≠ HKey.str (alphanum path ++ "Integration"))
    (hfresh2 : ∀ p ∈ api.resources,
      p.1 ≠ HKey.res (routeRouteRes api.t_api.title path http_method description)) :
    (add_route api path target http_method timeout description).1.resources =
      api.resources ++
        [(HKey.str (alphanum path ++ "Integration"),
          routeIntegrationRes api.t_api.title path target http_method timeout
            description),
         (HKey.res (routeRouteRes api.t_api.title path http_method description),
          routeRouteRes api.t_api.title path http_method description)] ∧
    (add_route api path target http_method timeout description).1.resources.length =
      api.resources.length + 2 ∧
    (add_route api path target http_method timeout
        description).1.resources.lookup
        (HKey.str (alphanum path ++ "Integration")) =
      some (routeIntegrationRes api.t_api.title path target http_method timeout
        description) ∧
    (add_route api path target http_method timeout
        description).1.resources.lookup
        (HKey.res (routeRouteRes api.t_api.title path http_method description)) =
      some (routeRouteRes api.t_api.title path http_method description) ∧
    ((add_route api path target http_method timeout
        description).1.resources.map Prod.fst).count
        (HKey.str (alphanum path ++ "Route")) =
      (api.resources.map Prod.fst).count (HKey.str (alphanum path ++ "Route")) := by
  by_cases hc : httpMethods.contains (strToUpper http_method)
  case neg =>
    unfold add_route at hok
    rw [if_pos hc] at hok
    exact absurd hok (by simp)
  case pos =>
    have hres : (add_route api path target http_method timeout
        description).1.resources =
        api.resources ++
          [(HKey.str (alphanum path ++ "Integration"),
            routeIntegrationRes api.t_api.title path target http_method timeout
              description),
           (HKey.res (routeRouteRes api.t_api.title path http_method description),
            routeRouteRes api.t_api.title path http_method description)] := by
      unfold add_route
      rw [if_neg (not_not_intro hc)]
      show hdictSet (hdictSet api.resources _ _) _ _ = _
      rw [hdictSet_fresh api.resources _ _
        (fun p hp => by simpa [routeIntegrationRes] using hfresh1 p hp)]
      rw [hdictSet_fresh _ _ _ ?hfr]
      case hfr =>
        intro p hp
        rcases List.mem_append.mp hp with hp | hp
        · exact hfresh2 p hp
        · simp only [List.mem_singleton] at hp
          subst hp
          simp
      rw [List.append_assoc]
      rfl
    have hneInt : (alphanum path ++ "Integration") ≠ (alphanum path ++ "Route") := by
      intro hh
      have := string_append_left_cancel hh
      exact absurd this (by decide)
    refine ⟨hres, ?_, ?_, ?_, ?_⟩
    · rw [hres]
      simp
    · rw [hres, List.lookup_append,
        lookup_none_of_fresh api.resources _ hfresh1]
      simp [List.lookup]
    · rw [hres, List.lookup_append,
        lookup_none_of_fresh api.resources _ hfresh2]
      have hbeqf : (HKey.res (routeRouteRes api.t_api.title path http_method
            description) ==
          HKey.str (alphanum path ++ "Integration")) = false :=
        beq_eq_false_iff_ne.mpr (by simp)
      simp [List.lookup, hbeqf]
    · rw [hres]
      simp [List.count_append, List.count_cons, hneInt]

theorem c10_add_route_two_entries_witness :
    (add_route (HttpApi.init "x" none) "p" "t" "GET" 10000 none).1.resources.length =
      (HttpApi.init "x" none).resources.length + 2 :=
  (c10_add_route_two_entries (HttpApi.init "x" none) "p" "t" "GET" 10000 none
    (by decide) (by decide) (by decide)).2.1

/-! ### Claim C4 -/

theorem rFold_append (d : List (String × Resource)) (a b : List Resource) :
    rFold d (a ++ b) = rFold (rFold d a) b :=
  List.foldl_append _ _ _ _

theorem foldl_addPublicStep_chunk (t : VpcTemplate) (name_pfx : String)
    (vpcId nv rv : RVal) (q : Nat × NetSegment) :
    ((ec2Chunk name_pfx (pfxOf name_pfx) vpcId (some nv) (some rv) q).foldl
        (addPublicStep true) t) =
      { t with
        r := rFold t.r (pubChunkWrites name_pfx t.vpc.title vpcId nv rv q)
        nat_gateways := t.nat_gateways ++
          [natGwRes (pfxOf name_pfx ++ Nat.repr (q.1 + 1)) (strToLower q.2.az)
            (lastUpper q.2.az) (q.1 + 1)]
        natted_route_tables := t.natted_route_tables ++
          [privRouteTableRes t.vpc.title (strToLower q.2.az) (lastUpper q.2.az)
            (q.1 + 1)] } := by
  rcases q with ⟨j, seg⟩
  simp [ec2Chunk, pubChunkWrites, rFold, addPublicStep, ec2Subnet, eipRes,
    natGwRes, privRouteTableRes, natRouteRes, naclAssociation,
    routeTableAssociation, metaStr, metaNat, List.lookup]

theorem foldl_addPublicStep (name_pfx : String) (vpcId nv rv : RVal) :
    ∀ (l : List (Nat × NetSegment)) (t : VpcTemplate),
      ((l.flatMap (ec2Chunk name_pfx (pfxOf name_pfx) vpcId (some nv)
          (some rv))).foldl (addPublicStep true) t) =
        { t with
          r := rFold t.r (l.flatMap (pubChunkWrites name_pfx t.vpc.title vpcId nv rv))
          nat_gateways := t.nat_gateways ++ pubGws name_pfx l
          natted_route_tables := t.natted_route_tables ++ pubRts t.vpc.title l } := by
  intro l
  induction l with
  | nil =>
    intro t
    simp [pubGws, pubRts, rFold]
  | cons q rest ih =>
    intro t
    rw [List.flatMap_cons, List.foldl_append, foldl_addPublicStep_chunk, ih]
    simp [pubGws, pubRts, rFold_append, List.flatMap_cons, List.append_assoc]

theorem enum_mem {α : Type _} (l : List α) (i : Nat) (hi : i < l.length) :
    (i, l[i]) ∈ l.enum := by
  have hi2 : i < l.enum.length := by
    rw [List.enum_length]
    omega
  have hget := List.getElem_enum l i hi2
  exact hget ▸ List.getElem_mem hi2

theorem countP_pubChunk_eip (name_pfx vpcTitle : String) (vpcId nv rv : RVal)
    (i : Nat) (q : Nat × NetSegment) :
    (pubChunkWrites name_pfx vpcTitle vpcId nv rv q).countP
        (fun r => decide (r.rtype = "AWS::EC2::EIP" ∧
          r.title = "EipNatGw" ++ Nat.repr (i + 1))) =
      if q.1 = i then 1 else 0 := by
  rcases q with ⟨j, seg⟩
  by_cases hji : j = i
  · subst hji
    simp [pubChunkWrites, ec2Subnet, eipRes, natGwRes, privRouteTableRes,
      natRouteRes, naclAssociation, routeTableAssociation, List.countP_cons,
      List.countP_nil]
  · have hne : "EipNatGw" ++ Nat.repr (j + 1) ≠ "EipNatGw" ++ Nat.repr (i + 1) :=
      subnet_suffix_ne (by omega)
    simp [pubChunkWrites, ec2Subnet, eipRes, natGwRes, privRouteTableRes,
      natRouteRes, naclAssociation, routeTableAssociation, List.countP_cons,
      List.countP_nil, hne, hji]

theorem countP_pubChunk_natGw (name_pfx vpcTitle : String) (vpcId nv rv : RVal)
    (i : Nat) (q : Nat × NetSegment) :
    (pubChunkWrites name_pfx vpcTitle vpcId nv rv q).countP
        (fun r => decide (r.rtype = "AWS::EC2::NatGateway" ∧
          r.props.lookup "SubnetId" = some (RVal.ref (subnetTitleOf name_pfx i)))) =
      if q.1 = i then 1 else 0 := by
  rcases q with ⟨j, seg⟩
  by_cases hji : j = i
  · subst hji
    simp [pubChunkWrites, ec2Subnet, eipRes, natGwRes, privRouteTableRes,
      natRouteRes, naclAssociation, routeTableAssociation, List.countP_cons,
      List.countP_nil, List.lookup, subnetTitleOf]
  · have hne : pfxOf name_pfx ++ Nat.repr (j + 1) ≠
        pfxOf name_pfx ++ Nat.repr (i + 1) :=
      subnet_suffix_ne (by omega)
    simp [pubChunkWrites, ec2Subnet, eipRes, natGwRes, privRouteTableRes,
      natRouteRes, naclAssociation, routeTableAssociation, List.countP_cons,
      List.countP_nil, List.lookup, subnetTitleOf, hne, hji]

theorem countP_pubChunk_natRoute (name_pfx vpcTitle : String) (vpcId nv rv : RVal)
    (i : Nat) (q : Nat × NetSegment) :
    (pubChunkWrites name_pfx vpcTitle vpcId nv rv q).countP
        (fun r => decide (r.rtype = "AWS::EC2::Route" ∧
          r.props.lookup "DestinationCidrBlock" = some (RVal.str "0.0.0.0/0") ∧
          r.props.lookup "NatGatewayId" =
            some (RVal.ref ("NatGw" ++ Nat.repr (i + 1))))) =
      if q.1 = i then 1 else 0 := by
  rcases q with ⟨j, seg⟩
  by_cases hji : j = i
  · subst hji
    simp [pubChunkWrites, ec2Subnet, eipRes, natGwRes, privRouteTableRes,
      natRouteRes, naclAssociation, routeTableAssociation, List.countP_cons,
      List.countP_nil, List.lookup]
  · have hne : "NatGw" ++ Nat.repr (j + 1) ≠ "NatGw" ++ Nat.repr (i + 1) :=
      subnet_suffix_ne (by omega)
    simp [pubChunkWrites, ec2Subnet, eipRes, natGwRes, privRouteTableRes,
      natRouteRes, naclAssociation, routeTableAssociation, List.countP_cons,
      List.countP_nil, List.lookup, hne, hji]

/-- C4: for every successful `VpcTemplate.add_public_subnet_group` call with
`create_nat_gateways=True`: each created subnet receives exactly one EIP
(titled with the subnet's suffix), exactly one NAT gateway whose `SubnetId`
references that subnet and whose `AllocationId` comes from that EIP, and
exactly one private route table, with exactly one `0.0.0.0/0` route whose
`NatGatewayId` references that NAT gateway and whose `RouteTableId`
references that route table; each NAT gateway is appended to
`self.nat_gateways` and each private route table to
`self.natted_route_tables`, and `_r` receives exactly the written resources. -/
theorem c4_add_public_subnet_group_nat_wiring (t : VpcTemplate)
    (name_pfx : String) (cidr_block : Cidr) (no_of_subnets : Nat)
    (t2 : VpcTemplate)
    (hok : add_public_subnet_group t name_pfx cidr_block no_of_subnets true =
      .ok t2) :
    ∃ segs, split_net_across_zones cidr_block t.region no_of_subnets = .ok segs ∧
      t2.nat_gateways = t.nat_gateways ++ pubGws name_pfx segs.enum ∧
      t2.natted_route_tables = t.natted_route_tables ++ pubRts t.vpc.title segs.enum ∧
      t2.r = rFold t.r (pubWrites t name_pfx segs.enum) ∧
      (pubGws name_pfx segs.enum).length = segs.length ∧
      ∀ i (hi : i < segs.length),
        natGwRes (subnetTitleOf name_pfx i) (strToLower segs[i].az)
          (lastUpper segs[i].az) (i + 1) ∈ pubGws name_pfx segs.enum ∧
        (natGwRes (subnetTitleOf name_pfx i) (strToLower segs[i].az)
            (lastUpper segs[i].az) (i + 1)).props.lookup "SubnetId" =
          some (RVal.ref (subnetTitleOf name_pfx i)) ∧
        (natGwRes (subnetTitleOf name_pfx i) (strToLower segs[i].az)
            (lastUpper segs[i].az) (i + 1)).props.lookup "AllocationId" =
          some (RVal.getAtt ("EipNatGw" ++ Nat.repr (i + 1)) "AllocationId") ∧
        privRouteTableRes t.vpc.title (strToLower segs[i].az)
          (lastUpper segs[i].az) (i + 1) ∈ pubRts t.vpc.title segs.enum ∧
        natRouteRes (lastUpper segs[i].az) ("PrivRouteTable" ++ Nat.repr (i + 1))
          ("NatGw" ++ Nat.repr (i + 1)) ∈ pubWrites t name_pfx segs.enum ∧
        (natRouteRes (lastUpper segs[i].az)
            ("PrivRouteTable" ++ Nat.repr (i + 1))
            ("NatGw" ++ Nat.repr (i + 1))).props.lookup "RouteTableId" =
          some (RVal.ref ("PrivRouteTable" ++ Nat.repr (i + 1))) ∧
        (natRouteRes (lastUpper segs[i].az)
            ("PrivRouteTable" ++ Nat.repr (i + 1))
            ("NatGw" ++ Nat.repr (i + 1))).props.lookup "DestinationCidrBlock" =
          some (RVal.str "0.0.0.0/0") ∧
        (pubWrites t name_pfx segs.enum).countP
          (fun r => decide (r.rtype = "AWS::EC2::EIP" ∧
            r.title = "EipNatGw" ++ Nat.repr (i + 1))) = 1 ∧
        (pubWrites t name_pfx segs.enum).countP
          (fun r => decide (r.rtype = "AWS::EC2::NatGateway" ∧
            r.props.lookup "SubnetId" =
              some (RVal.ref (subnetTitleOf name_pfx i)))) = 1 ∧
        (pubWrites t name_pfx segs.enum).countP
          (fun r => decide (r.rtype = "AWS::EC2::Route" ∧
            r.props.lookup "DestinationCidrBlock" = some (RVal.str "0.0.0.0/0") ∧
            r.props.lookup "NatGatewayId" =
              some (RVal.ref ("NatGw" ++ Nat.repr (i + 1))))) = 1 := by
  unfold add_public_subnet_group at hok
  cases hmz : multiaz_subnets name_pfx cidr_block t.region (some t.vpc.title)
      none no_of_subnets (some t.public_nacl.title) none
      (some t.public_route_table.title) none with
  | error e =>
    rw [hmz] at hok
    exact absurd hok (by simp)
  | ok rs =>
    rw [hmz] at hok
    simp only [Except.ok.injEq] at hok
    rcases (multiaz_subnets_ok_iff name_pfx cidr_block t.region (some t.vpc.title)
        none no_of_subnets (some t.public_nacl.title) none
        (some t.public_route_table.title) none rs).mp hmz with
      ⟨-, segs, hsplit, hrs⟩
    have hlen := split_ok_length hsplit
    rw [effId_eq_some (some t.public_nacl.title) none (Or.inl (by simp)),
      effId_eq_some (some t.public_route_table.title) none (Or.inl (by simp))]
      at hrs
    have ht2 : t2 =
        { t with
          r := rFold t.r (segs.enum.flatMap (pubChunkWrites name_pfx t.vpc.title
            (vpcIdVal (some t.vpc.title) none)
            (suppliedId (some t.public_nacl.title) none)
            (suppliedId (some t.public_route_table.title) none)))
          nat_gateways := t.nat_gateways ++ pubGws name_pfx segs.enum
          natted_route_tables := t.natted_route_tables ++
            pubRts t.vpc.title segs.enum } := by
      rw [← hok, hrs, foldl_addPublicStep]
    have hnodup : (segs.enum.map Prod.fst).Nodup := by
      rw [List.enum_map_fst]
      exact List.nodup_range _
    refine ⟨segs, hsplit, ?_, ?_, ?_, ?_, ?_⟩
    · rw [ht2]
    · rw [ht2]
    · rw [ht2]
      rfl
    · simp [pubGws]
    · intro i hi
      have hqm := enum_mem segs i hi
      have hmemrange : i ∈ segs.enum.map Prod.fst := by
        rw [List.enum_map_fst]
        exact List.mem_range.mpr hi
      refine ⟨?_, by rfl, by rfl, ?_, ?_, by rfl, by rfl, ?_, ?_, ?_⟩
      · exact List.mem_map.mpr ⟨(i, segs[i]), hqm, rfl⟩
      · exact List.mem_map.mpr ⟨(i, segs[i]), hqm, rfl⟩
      · exact List.mem_flatMap.mpr ⟨(i, segs[i]), hqm, by simp [pubChunkWrites]⟩
      · exact countP_flatMap_unique _ _ Prod.fst i segs.enum hnodup hmemrange
          (fun q hq => countP_pubChunk_eip name_pfx t.vpc.title _ _ _ i q)
      · exact countP_flatMap_unique _ _ Prod.fst i segs.enum hnodup hmemrange
          (fun q hq => countP_pubChunk_natGw name_pfx t.vpc.title _ _ _ i q)
      · exact countP_flatMap_unique _ _ Prod.fst i segs.enum hnodup hmemrange
          (fun q hq => countP_pubChunk_natRoute name_pfx t.vpc.title _ _ _ i q)

set_option maxRecDepth 8192 in
theorem c4_add_public_subnet_group_nat_wiring_witness :
    c4t2.nat_gateways = c4t0.nat_gateways ++ pubGws "pub" ([c4seg] : List NetSegment).enum ∧
    natGwRes (subnetTitleOf "pub" 0) (strToLower "ra") (lastUpper "ra") 1 ∈
      pubGws "pub" ([c4seg] : List NetSegment).enum := by
  have h := c4_add_public_subnet_group_nat_wiring c4t0 "pub" ⟨0, 24⟩ 1 c4t2
    (by decide)
  rcases h with ⟨segs, hsplit, hgw, hrt, hr, hlen, hall⟩
  have hsegs : [c4seg] = segs :=
    Except.ok.inj
      ((by decide :
        split_net_across_zones ⟨0, 24⟩ c4t0.region 1 = .ok [c4seg]).symm.trans
        hsplit)
  subst hsegs
  exact ⟨hgw, (hall 0 (by decide)).1⟩

/-! ### Claim C5 -/

theorem metaStr_ec2Subnet_az (name_pfx pfx : String) (vpcId : RVal) (index : Nat)
    (seg : NetSegment) :
    metaStr (ec2Subnet name_pfx pfx vpcId index seg) "az" = strToLower seg.az := rfl

theorem nattedLoop_chunk_some (t : VpcTemplate) (name_pfx pfx : String)
    (vpcId nv : RVal) (j : Nat) (seg : NetSegment) (rt : Resource)
    (rest : List Resource)
    (hrt : findNattedRt t.natted_route_tables (strToLower seg.az) = some rt) :
    nattedLoop (ec2Subnet name_pfx pfx vpcId j seg ::
        naclAssociation (pfx ++ Nat.repr (j + 1)) nv :: rest) t =
      nattedLoop rest
        { t with
          r := rFold t.r [ec2Subnet name_pfx pfx vpcId j seg,
            routeTableAssociation (pfx ++ Nat.repr (j + 1)) (RVal.ref rt.title),
            naclAssociation (pfx ++ Nat.repr (j + 1)) nv] } := by
  rw [nattedLoop]
  rw [if_pos (show (ec2Subnet name_pfx pfx vpcId j seg).rtype =
    "AWS::EC2::Subnet" from rfl)]
  rw [metaStr_ec2Subnet_az]
  simp only [hrt]
  rw [nattedLoop]
  rw [if_neg (show ¬ (naclAssociation (pfx ++ Nat.repr (j + 1)) nv).rtype =
    "AWS::EC2::Subnet" from by simp [naclAssociation])]
  simp [rFold, naclAssociation, routeTableAssociation, ec2Subnet]


theorem nattedLoop_chunk_none (t : VpcTemplate) (name_pfx pfx : String)
    (vpcId : RVal) (j : Nat) (seg : NetSegment) (rest : List Resource)
    (hrt : findNattedRt t.natted_route_tables (strToLower seg.az) = none) :
    nattedLoop (ec2Subnet name_pfx pfx vpcId j seg :: rest) t =
      .error (.notImplementedError
        ("Can\x27t find NAT gateway in " ++ strToLower seg.az)) := by
  rw [nattedLoop]
  rw [if_pos (show (ec2Subnet name_pfx pfx vpcId j seg).rtype =
    "AWS::EC2::Subnet" from rfl)]
  rw [metaStr_ec2Subnet_az]
  simp only [hrt]

theorem nattedLoop_ok (name_pfx naclTitle : String) (vpcId : RVal) :
    ∀ (l : List (Nat × NetSegment)) (t : VpcTemplate),
      (∀ q ∈ l, findNattedRt t.natted_route_tables (strToLower q.2.az) ≠ none) →
      nattedLoop (l.flatMap (ec2Chunk name_pfx (pfxOf name_pfx) vpcId
          (some (.ref naclTitle)) none)) t =
        .ok { t with r := rFold t.r (l.flatMap (nattedChunkWrites name_pfx
          naclTitle vpcId t.natted_route_tables)) } := by
  intro l
  induction l with
  | nil =>
    intro t hall
    simp [nattedLoop, rFold]
  | cons q rest ih =>
    intro t hall
    rcases q with ⟨j, seg⟩
    obtain ⟨rt, hrt⟩ : ∃ rt,
        findNattedRt t.natted_route_tables (strToLower seg.az) = some rt := by
      cases hfind : findNattedRt t.natted_route_tables (strToLower seg.az) with
      | none => exact absurd hfind (hall (j, seg) (by simp))
      | some rt => exact ⟨rt, rfl⟩
    rw [List.flatMap_cons]
    show nattedLoop (ec2Subnet name_pfx (pfxOf name_pfx) vpcId j seg ::
      naclAssociation (pfxOf name_pfx ++ Nat.repr (j + 1)) (.ref naclTitle) ::
      rest.flatMap (ec2Chunk name_pfx (pfxOf name_pfx) vpcId
        (some (.ref naclTitle)) none)) t = _
    rw [nattedLoop_chunk_some t name_pfx (pfxOf name_pfx) vpcId (.ref naclTitle)
      j seg rt _ hrt]
    have hih := ih
      { t with r := rFold t.r [ec2Subnet name_pfx (pfxOf name_pfx) vpcId j seg,
          routeTableAssociation (pfxOf name_pfx ++ Nat.repr (j + 1))
            (RVal.ref rt.title),
          naclAssociation (pfxOf name_pfx ++ Nat.repr (j + 1))
            (RVal.ref naclTitle)] }
      (fun p hp => hall p (by simp [hp]))
    rw [hih]
    simp only [List.flatMap_cons, rFold_append, Except.ok.injEq]
    simp [nattedChunkWrites, selRt, hrt, rFold, ec2Subnet]

theorem nattedLoop_err (name_pfx naclTitle : String) (vpcId : RVal) :
    ∀ (l : List (Nat × NetSegment)) (t : VpcTemplate),
      (∃ q ∈ l, findNattedRt t.natted_route_tables (strToLower q.2.az) = none) →
      ∃ msg, nattedLoop (l.flatMap (ec2Chunk name_pfx (pfxOf name_pfx) vpcId
          (some (.ref naclTitle)) none)) t =
        .error (.notImplementedError msg) := by
  intro l
  induction l with
  | nil =>
    rintro t ⟨q, hq, -⟩
    exact absurd hq (by simp)
  | cons p rest ih =>
    rintro t ⟨q, hq, hnone⟩
    rcases p with ⟨j, seg⟩
    rw [List.flatMap_cons]
    cases hfind : findNattedRt t.natted_route_tables (strToLower seg.az) with
    | none =>
      refine ⟨"Can\x27t find NAT gateway in " ++ strToLower seg.az, ?_⟩
      show nattedLoop (ec2Subnet name_pfx (pfxOf name_pfx) vpcId j seg ::
        naclAssociation (pfxOf name_pfx ++ Nat.repr (j + 1)) (.ref naclTitle) ::
        rest.flatMap (ec2Chunk name_pfx (pfxOf name_pfx) vpcId
          (some (.ref naclTitle)) none)) t = _
      exact nattedLoop_chunk_none t name_pfx (pfxOf name_pfx) vpcId j seg _ hfind
    | some rt =>
      rcases List.mem_cons.mp hq with hq1 | hq2
      · rw [hq1] at hnone
        rw [hnone] at hfind
        cases hfind
      · obtain ⟨msg, hmsg⟩ := ih
          { t with r := rFold t.r [ec2Subnet name_pfx (pfxOf name_pfx) vpcId j seg,
              routeTableAssociation (pfxOf name_pfx ++ Nat.repr (j + 1))
                (RVal.ref rt.title),
              naclAssociation (pfxOf name_pfx ++ Nat.repr (j + 1))
                (RVal.ref naclTitle)] }
          ⟨q, hq2, hnone⟩
        refine ⟨msg, ?_⟩
        show nattedLoop (ec2Subnet name_pfx (pfxOf name_pfx) vpcId j seg ::
          naclAssociation (pfxOf name_pfx ++ Nat.repr (j + 1)) (.ref naclTitle) ::
          rest.flatMap (ec2Chunk name_pfx (pfxOf name_pfx) vpcId
            (some (.ref naclTitle)) none)) t = _
        rw [nattedLoop_chunk_some t name_pfx (pfxOf name_pfx) vpcId
          (.ref naclTitle) j seg rt _ hfind]
        exact hmsg


theorem findNattedRt_spec {rts : List Resource} {az : String} {rt : Resource}
    (h : findNattedRt rts az = some rt) :
    rt ∈ rts ∧ metaStr rt "az" = az := by
  unfold findNattedRt at h
  have h1 := List.mem_of_find?_eq_some h
  have h2 := List.find?_some h
  exact ⟨h1, of_decide_eq_true h2⟩

theorem c5_add_natted_subnet_group_association (t : VpcTemplate)
    (cidr_block : Cidr) (name_pfx : String) (no_of_subnets : Nat) :
    (∀ t2, add_natted_subnet_group t cidr_block name_pfx no_of_subnets = .ok t2 →
      ∃ segs, split_net_across_zones cidr_block t.region no_of_subnets = .ok segs ∧
        t2.r = rFold t.r (segs.enum.flatMap (nattedChunkWrites name_pfx
          t.internal_nacl.title (RVal.ref t.vpc.title) t.natted_route_tables)) ∧
        ∀ i (hi : i < segs.length),
          ∃ rt, findNattedRt t.natted_route_tables (strToLower segs[i].az) =
              some rt ∧
            rt ∈ t.natted_route_tables ∧
            metaStr rt "az" = strToLower segs[i].az ∧
            routeTableAssociation (subnetTitleOf name_pfx i) (RVal.ref rt.title) ∈
              segs.enum.flatMap (nattedChunkWrites name_pfx t.internal_nacl.title
                (RVal.ref t.vpc.title) t.natted_route_tables)) ∧
    (∀ segs, split_net_across_zones cidr_block t.region no_of_subnets = .ok segs →
      (∃ i, ∃ hi : i < segs.length,
        findNattedRt t.natted_route_tables (strToLower segs[i].az) = none) →
      ∃ msg, add_natted_subnet_group t cidr_block name_pfx no_of_subnets =
        .error (.notImplementedError msg)) := by
  constructor
  · intro t2 hok
    unfold add_natted_subnet_group at hok
    cases hmz : multiaz_subnets name_pfx cidr_block t.region (some t.vpc.title)
        none no_of_subnets (some t.internal_nacl.title) none none none with
    | error e =>
      simp only [hmz] at hok
      exact absurd hok (by simp)
    | ok rs =>
      simp only [hmz] at hok
      rcases (multiaz_subnets_ok_iff name_pfx cidr_block t.region
          (some t.vpc.title) none no_of_subnets (some t.internal_nacl.title)
          none none none rs).mp hmz with ⟨-, segs, hsplit, hrs⟩
      have hrs2 : rs = segs.enum.flatMap (ec2Chunk name_pfx (pfxOf name_pfx)
          (RVal.ref t.vpc.title) (some (RVal.ref t.internal_nacl.title)) none) :=
        hrs
      by_cases hall : ∀ q ∈ segs.enum,
          findNattedRt t.natted_route_tables (strToLower q.2.az) ≠ none
      · rw [hrs2, nattedLoop_ok name_pfx t.internal_nacl.title
          (RVal.ref t.vpc.title) segs.enum t hall] at hok
        have ht2 := (Except.ok.inj hok).symm
        refine ⟨segs, hsplit, ?_, ?_⟩
        · rw [ht2]
        · intro i hi
          obtain ⟨rt, hrt⟩ : ∃ rt, findNattedRt t.natted_route_tables
              (strToLower segs[i].az) = some rt := by
            cases hfind : findNattedRt t.natted_route_tables
                (strToLower segs[i].az) with
            | none => exact absurd hfind (hall (i, segs[i]) (enum_mem segs i hi))
            | some rt => exact ⟨rt, rfl⟩
          refine ⟨rt, hrt, (findNattedRt_spec hrt).1, (findNattedRt_spec hrt).2, ?_⟩
          · apply List.mem_flatMap.mpr
            exact ⟨(i, segs[i]), enum_mem segs i hi,
              by simp [nattedChunkWrites, selRt, hrt, ec2Subnet, subnetTitleOf]⟩
      · push_neg at hall
        obtain ⟨q, hq, hnone⟩ := hall
        obtain ⟨msg, herr⟩ := nattedLoop_err name_pfx t.internal_nacl.title
          (RVal.ref t.vpc.title) segs.enum t ⟨q, hq, hnone⟩
        rw [hrs2, herr] at hok
        exact absurd hok (by simp)
  · rintro segs hsplit ⟨i, hi, hnone⟩
    have hmz : multiaz_subnets name_pfx cidr_block t.region (some t.vpc.title)
        none no_of_subnets (some t.internal_nacl.title) none none none =
        .ok (segs.enum.flatMap (ec2Chunk name_pfx (pfxOf name_pfx)
          (RVal.ref t.vpc.title) (some (RVal.ref t.internal_nacl.title)) none)) :=
      (multiaz_subnets_ok_iff name_pfx cidr_block t.region (some t.vpc.title)
        none no_of_subnets (some t.internal_nacl.title) none none none
        _).mpr ⟨by simp, segs, hsplit, rfl⟩
    unfold add_natted_subnet_group
    simp only [hmz]
    exact nattedLoop_err name_pfx t.internal_nacl.title (RVal.ref t.vpc.title)
      segs.enum t ⟨(i, segs[i]), enum_mem segs i hi, hnone⟩

set_option maxRecDepth 8192 in
theorem c5_add_natted_subnet_group_association_witness :
    (routeTableAssociation (subnetTitleOf "priv" 0)
        (RVal.ref "PrivRouteTable1") ∈
      ([c4seg] : List NetSegment).enum.flatMap (nattedChunkWrites "priv"
        "InternalNacl" (RVal.ref "VPCVpc") c5t0.natted_route_tables)) ∧
    (∃ msg, add_natted_subnet_group c4t0 ⟨0, 24⟩ "priv" 1 =
      .error (.notImplementedError msg)) := by
  constructor
  · have h := (c5_add_natted_subnet_group_association c5t0 ⟨0, 24⟩ "priv" 1).1
      c5t2 (by decide)
    rcases h with ⟨segs, hsplit, hr, hall⟩
    have hsegs : [c4seg] = segs :=
      Except.ok.inj
        ((by decide :
          split_net_across_zones ⟨0, 24⟩ c5t0.region 1 = .ok [c4seg]).symm.trans
          hsplit)
    subst hsegs
    obtain ⟨rt, hrt, -, -, hmem⟩ := hall 0 (by decide)
    have hrteq : privRouteTableRes "VPCVpc" "ra" "A" 1 = rt :=
      Option.some.inj
        ((by decide : findNattedRt c5t0.natted_route_tables
          (strToLower c4seg.az) =
            some (privRouteTableRes "VPCVpc" "ra" "A" 1)).symm.trans hrt)
    rw [← hrteq] at hmem
    exact hmem
  · exact (c5_add_natted_subnet_group_association c4t0 ⟨0, 24⟩ "priv" 1).2
      [c4seg] (by decide) ⟨0, by decide, by decide⟩
